import Mathlib

/-!
Verification of the Synthesis threat-modelling pipeline.

This file shallowly embeds the core of the repository — the OWASP risk
rating engine (`src/lib/threat-engine/owasp-risk-engine.ts`), the
truncated-JSON recovery scanner and threat validation
(`src/lib/threat-engine/threat-generator.ts`), the security pattern
scanner and architecture extractor
(`src/lib/threat-engine/repo-analyzer.ts`), the LLM call layer
(`src/unnamed/part_001`), and the persistence step of the analysis
orchestrator (`src/unnamed/part_006`) — and proves or refutes the
specification claims about them.

JavaScript numbers are modelled at two levels.  Finite numbers are
rationals (all arithmetic the engine performs — sums of small integers
divided by 4 or 8, comparisons with 3 and 6 — is exact in IEEE doubles,
so the rational model is faithful); `Math.round` is `round : ℚ → ℤ`
(both are floor of x + 1/2 on these inputs).  Where the non-finite
values matter — the risk-factor validation, where a present invalid
value passes `??` (which substitutes only for `null`/`undefined`) and
`Math.round`, `Math.min` and `Math.max` all propagate `NaN` — the full
JS number domain (finite, Infinity, -Infinity, NaN) is modelled
by `JsNum`, and the rational model is proved to be its restriction
(`validateLikelihoodJs_agrees`, `validateImpactJs_agrees`).
Absent/optional fields are modelled with `Option`.
-/

namespace Synthesis

/-! ## Risk Rating Engine — owasp-risk-engine.ts -/

inductive RiskLevel where
  | LOW
  | MEDIUM
  | HIGH
deriving DecidableEq, Repr

inductive RiskSeverity where
  | Note
  | Low
  | Medium
  | High
  | Critical
deriving DecidableEq, Repr

/-- Validated OWASP likelihood factors (owasp-risk-engine.ts lines 4-15).
After validation each field is the integer result of `clamp`. -/
structure OwaspLikelihood where
  skillLevel : ℤ
  motive : ℤ
  opportunity : ℤ
  size : ℤ
  easeOfDiscovery : ℤ
  easeOfExploit : ℤ
  awareness : ℤ
  intrusionDetection : ℤ
deriving DecidableEq, Repr

/-- Validated OWASP impact factors (owasp-risk-engine.ts lines 17-23). -/
structure OwaspImpact where
  confidentiality : ℤ
  integrity : ℤ
  availability : ℤ
  accountability : ℤ
deriving DecidableEq, Repr

/-- A `Partial<OwaspLikelihood>` as produced by parsing the model
response, restricted to the absent-or-finite-numeric field domain:
`none` is an absent (`undefined`/`null`) field, which `??` replaces
with the default.  The full JS field domain — including `NaN`, which
`??` passes through and `clamp` propagates — is `RawLikelihoodJs`
below; `validateLikelihoodJs_agrees` proves the two models agree on
this restriction. -/
structure RawLikelihood where
  skillLevel : Option ℚ
  motive : Option ℚ
  opportunity : Option ℚ
  size : Option ℚ
  easeOfDiscovery : Option ℚ
  easeOfExploit : Option ℚ
  awareness : Option ℚ
  intrusionDetection : Option ℚ
deriving DecidableEq

/-- A `Partial<OwaspImpact>`, restricted to the absent-or-finite-numeric
field domain; the full JS field domain is `RawImpactJs` below, and
`validateImpactJs_agrees` proves the two models agree on this
restriction. -/
structure RawImpact where
  confidentiality : Option ℚ
  integrity : Option ℚ
  availability : Option ℚ
  accountability : Option ℚ
deriving DecidableEq

/-- `clamp` (owasp-risk-engine.ts lines 39-41):
`Math.max(0, Math.min(9, Math.round(value)))`. -/
def clamp (value : ℚ) : ℤ :=
  max 0 (min 9 (round value))

/-- `getLevel` (owasp-risk-engine.ts lines 43-47). -/
def getLevel (score : ℚ) : RiskLevel :=
  if score < 3 then .LOW
  else if score < 6 then .MEDIUM
  else .HIGH

/-- `RISK_MATRIX` lookup, `getRiskSeverity` (owasp-risk-engine.ts lines
50-73); first index is the impact level, second the likelihood level. -/
def getRiskSeverity (impactLevel likelihoodLevel : RiskLevel) : RiskSeverity :=
  match impactLevel, likelihoodLevel with
  | .HIGH, .LOW => .Medium
  | .HIGH, .MEDIUM => .High
  | .HIGH, .HIGH => .Critical
  | .MEDIUM, .LOW => .Low
  | .MEDIUM, .MEDIUM => .Medium
  | .MEDIUM, .HIGH => .High
  | .LOW, .LOW => .Note
  | .LOW, .MEDIUM => .Low
  | .LOW, .HIGH => .Medium

/-- The all-fives default likelihood (owasp-risk-engine.ts lines 78-87). -/
def defaultLikelihood : OwaspLikelihood :=
  { skillLevel := 5, motive := 5, opportunity := 5, size := 5,
    easeOfDiscovery := 5, easeOfExploit := 5, awareness := 5,
    intrusionDetection := 5 }

/-- The all-fives default impact (owasp-risk-engine.ts lines 106-111). -/
def defaultImpact : OwaspImpact :=
  { confidentiality := 5, integrity := 5, availability := 5,
    accountability := 5 }

/-- `validateLikelihood` (owasp-risk-engine.ts lines 75-101):
`if (!raw) return defaults;` then per-field `clamp(raw.x ?? defaults.x)`. -/
def validateLikelihood (raw : Option RawLikelihood) : OwaspLikelihood :=
  match raw with
  | none => defaultLikelihood
  | some r =>
    { skillLevel := clamp (r.skillLevel.getD 5),
      motive := clamp (r.motive.getD 5),
      opportunity := clamp (r.opportunity.getD 5),
      size := clamp (r.size.getD 5),
      easeOfDiscovery := clamp (r.easeOfDiscovery.getD 5),
      easeOfExploit := clamp (r.easeOfExploit.getD 5),
      awareness := clamp (r.awareness.getD 5),
      intrusionDetection := clamp (r.intrusionDetection.getD 5) }

/-- `validateImpact` (owasp-risk-engine.ts lines 103-119). -/
def validateImpact (raw : Option RawImpact) : OwaspImpact :=
  match raw with
  | none => defaultImpact
  | some r =>
    { confidentiality := clamp (r.confidentiality.getD 5),
      integrity := clamp (r.integrity.getD 5),
      availability := clamp (r.availability.getD 5),
      accountability := clamp (r.accountability.getD 5) }

/-! ### The full JS number domain

A sub-factor value reaching `clamp` need not be absent-or-finite: the
unchecked JSON cast in `validateThreat` (threat-generator.ts, `raw.
owaspLikelihood as Partial<OwaspLikelihood>`) lets any JSON value
through, and `NaN` is in the declared `number` type itself.  `x ?? d`
substitutes `d` only for `null`/`undefined`, so a present invalid
value reaches `Math.round`, which applies `ToNumber` to it: a numeric
string or boolean coerces to its finite number, a non-numeric value
coerces to `NaN`, and `Math.round`, `Math.min` and `Math.max` all
return `NaN` on `NaN`.  `JsNum` is the JS number domain after this
coercion. -/

/-- A JavaScript number as observed by `clamp`: a finite value (also
representing any value `ToNumber` coerces to that finite number, e.g.
a numeric string), `Infinity`, `-Infinity`, or `NaN` (also
representing every non-coercible value). -/
inductive JsNum where
  | num (q : ℚ)
  | posInf
  | negInf
  | nan
deriving DecidableEq, Repr

/-- `Math.round`: half-up rounding on finite numbers;
`Math.round(Infinity) = Infinity`, `Math.round(-Infinity) = -Infinity`,
`Math.round(NaN) = NaN`. -/
def jsRound : JsNum → JsNum
  | .num q => .num ((round q : ℤ) : ℚ)
  | .posInf => .posInf
  | .negInf => .negInf
  | .nan => .nan

/-- `Math.min(c, v)` for a finite constant `c`: returns `NaN` when `v`
is `NaN`. -/
def jsMin (c : ℚ) : JsNum → JsNum
  | .num q => .num (min c q)
  | .posInf => .num c
  | .negInf => .negInf
  | .nan => .nan

/-- `Math.max(c, v)` for a finite constant `c`: returns `NaN` when `v`
is `NaN`. -/
def jsMax (c : ℚ) : JsNum → JsNum
  | .num q => .num (max c q)
  | .posInf => .posInf
  | .negInf => .num c
  | .nan => .nan

/-- `clamp` (owasp-risk-engine.ts lines 39-41) over the full JS number
domain: `Math.max(0, Math.min(9, Math.round(value)))`.  `NaN`
propagates through all three operations. -/
def jsClamp (v : JsNum) : JsNum :=
  jsMax 0 (jsMin 9 (jsRound v))

/-- Whether a JS number is an integer in the range [0,9]. -/
def JsNum.isIntInRange : JsNum → Bool
  | .num q => q.den == 1 && decide (0 ≤ q) && decide (q ≤ 9)
  | _ => false

/-- `Partial<OwaspLikelihood>` over the full JS field domain: `none` is
an absent (`undefined`/`null`) field; a present field carries any JS
number, including `NaN`. -/
structure RawLikelihoodJs where
  skillLevel : Option JsNum
  motive : Option JsNum
  opportunity : Option JsNum
  size : Option JsNum
  easeOfDiscovery : Option JsNum
  easeOfExploit : Option JsNum
  awareness : Option JsNum
  intrusionDetection : Option JsNum
deriving DecidableEq

/-- `Partial<OwaspImpact>` over the full JS field domain. -/
structure RawImpactJs where
  confidentiality : Option JsNum
  integrity : Option JsNum
  availability : Option JsNum
  accountability : Option JsNum
deriving DecidableEq

/-- The output type of `validateLikelihood` over the full JS number
domain: each field is whatever `clamp` returned, possibly `NaN`. -/
structure OwaspLikelihoodJs where
  skillLevel : JsNum
  motive : JsNum
  opportunity : JsNum
  size : JsNum
  easeOfDiscovery : JsNum
  easeOfExploit : JsNum
  awareness : JsNum
  intrusionDetection : JsNum
deriving DecidableEq, Repr

/-- The output type of `validateImpact` over the full JS number domain. -/
structure OwaspImpactJs where
  confidentiality : JsNum
  integrity : JsNum
  availability : JsNum
  accountability : JsNum
deriving DecidableEq, Repr

/-- The all-fives default likelihood over the full JS number domain. -/
def defaultLikelihoodJs : OwaspLikelihoodJs :=
  { skillLevel := .num 5, motive := .num 5, opportunity := .num 5,
    size := .num 5, easeOfDiscovery := .num 5, easeOfExploit := .num 5,
    awareness := .num 5, intrusionDetection := .num 5 }

/-- The all-fives default impact over the full JS number domain. -/
def defaultImpactJs : OwaspImpactJs :=
  { confidentiality := .num 5, integrity := .num 5,
    availability := .num 5, accountability := .num 5 }

/-- `validateLikelihood` (owasp-risk-engine.ts lines 75-101) over the
full JS number domain: `if (!raw) return defaults;` then per-field
`clamp(raw.x ?? defaults.x)`. -/
def validateLikelihoodJs (raw : Option RawLikelihoodJs) : OwaspLikelihoodJs :=
  match raw with
  | none => defaultLikelihoodJs
  | some r =>
    { skillLevel := jsClamp (r.skillLevel.getD (.num 5)),
      motive := jsClamp (r.motive.getD (.num 5)),
      opportunity := jsClamp (r.opportunity.getD (.num 5)),
      size := jsClamp (r.size.getD (.num 5)),
      easeOfDiscovery := jsClamp (r.easeOfDiscovery.getD (.num 5)),
      easeOfExploit := jsClamp (r.easeOfExploit.getD (.num 5)),
      awareness := jsClamp (r.awareness.getD (.num 5)),
      intrusionDetection := jsClamp (r.intrusionDetection.getD (.num 5)) }

/-- `validateImpact` (owasp-risk-engine.ts lines 103-119) over the full
JS number domain. -/
def validateImpactJs (raw : Option RawImpactJs) : OwaspImpactJs :=
  match raw with
  | none => defaultImpactJs
  | some r =>
    { confidentiality := jsClamp (r.confidentiality.getD (.num 5)),
      integrity := jsClamp (r.integrity.getD (.num 5)),
      availability := jsClamp (r.availability.getD (.num 5)),
      accountability := jsClamp (r.accountability.getD (.num 5)) }

/-- Inject the restricted raw model into the full JS model. -/
def RawLikelihood.toJs (r : RawLikelihood) : RawLikelihoodJs :=
  { skillLevel := r.skillLevel.map .num,
    motive := r.motive.map .num,
    opportunity := r.opportunity.map .num,
    size := r.size.map .num,
    easeOfDiscovery := r.easeOfDiscovery.map .num,
    easeOfExploit := r.easeOfExploit.map .num,
    awareness := r.awareness.map .num,
    intrusionDetection := r.intrusionDetection.map .num }

/-- Inject the restricted raw impact model into the full JS model. -/
def RawImpact.toJs (r : RawImpact) : RawImpactJs :=
  { confidentiality := r.confidentiality.map .num,
    integrity := r.integrity.map .num,
    availability := r.availability.map .num,
    accountability := r.accountability.map .num }

/-- View integer-valued validated likelihood factors as JS numbers. -/
def OwaspLikelihood.toJsNum (l : OwaspLikelihood) : OwaspLikelihoodJs :=
  { skillLevel := .num (l.skillLevel : ℚ),
    motive := .num (l.motive : ℚ),
    opportunity := .num (l.opportunity : ℚ),
    size := .num (l.size : ℚ),
    easeOfDiscovery := .num (l.easeOfDiscovery : ℚ),
    easeOfExploit := .num (l.easeOfExploit : ℚ),
    awareness := .num (l.awareness : ℚ),
    intrusionDetection := .num (l.intrusionDetection : ℚ) }

/-- View integer-valued validated impact factors as JS numbers. -/
def OwaspImpact.toJsNum (i : OwaspImpact) : OwaspImpactJs :=
  { confidentiality := .num (i.confidentiality : ℚ),
    integrity := .num (i.integrity : ℚ),
    availability := .num (i.availability : ℚ),
    accountability := .num (i.accountability : ℚ) }

/-- `OwaspRiskRating` (owasp-risk-engine.ts lines 28-37). -/
structure OwaspRiskRating where
  likelihood : OwaspLikelihood
  impact : OwaspImpact
  likelihoodScore : ℚ
  impactScore : ℚ
  likelihoodLevel : RiskLevel
  impactLevel : RiskLevel
  riskSeverity : RiskSeverity
  overallRiskScore : ℚ
deriving DecidableEq, Repr

/-- `Math.round(x * 100) / 100` — two-decimal rounding used for the
stored scores. -/
def round2 (x : ℚ) : ℚ :=
  (round (x * 100) : ℚ) / 100

/-- Mean of the eight likelihood sub-factors. -/
def likelihoodMean (l : OwaspLikelihood) : ℚ :=
  ((l.skillLevel + l.motive + l.opportunity + l.size + l.easeOfDiscovery +
      l.easeOfExploit + l.awareness + l.intrusionDetection : ℤ) : ℚ) / 8

/-- Mean of the four impact sub-factors. -/
def impactMean (i : OwaspImpact) : ℚ :=
  ((i.confidentiality + i.integrity + i.availability + i.accountability : ℤ) : ℚ) / 4

/-- `calculateRiskRating` (owasp-risk-engine.ts lines 121-161). -/
def calculateRiskRating (rawLikelihood : Option RawLikelihood)
    (rawImpact : Option RawImpact) : OwaspRiskRating :=
  let likelihood := validateLikelihood rawLikelihood
  let impact := validateImpact rawImpact
  let likelihoodScore := likelihoodMean likelihood
  let impactScore := impactMean impact
  let likelihoodLevel := getLevel likelihoodScore
  let impactLevel := getLevel impactScore
  let riskSeverity := getRiskSeverity impactLevel likelihoodLevel
  { likelihood := likelihood,
    impact := impact,
    likelihoodScore := round2 likelihoodScore,
    impactScore := round2 impactScore,
    likelihoodLevel := likelihoodLevel,
    impactLevel := impactLevel,
    riskSeverity := riskSeverity,
    overallRiskScore := round2 (likelihoodScore * impactScore) }

/-! ## Response Parser & Recovery — threat-generator.ts lines 441-472

`repairTruncatedJsonArray` scans the character sequence tracking bracket
nesting depth and string/escape state, records the offset of the last
`}` that closes back to depth 1 (an element of the top-level array), and
truncates there.  The scan state mirrors the JS locals `depth`,
`inString`, `escape`, `lastCompleteObjectEnd`. -/

/-- The JS loop state without `lastCompleteObjectEnd`. -/
structure ScanCore where
  depth : ℤ
  inStr : Bool
  esc : Bool
deriving DecidableEq, Repr

/-- Full JS loop state (`depth`, `inString`, `escape`,
`lastCompleteObjectEnd`). -/
structure ScanSt where
  depth : ℤ
  inStr : Bool
  esc : Bool
  lastEnd : ℤ
deriving DecidableEq, Repr

/-- One iteration of the JS scan loop (threat-generator.ts lines
449-464) at index `i`. -/
def scanStep (i : Nat) (s : ScanSt) (c : Char) : ScanSt :=
  if s.esc then { s with esc := false }
  else if c = '\\' then { s with esc := true }
  else if c = '"' then { s with inStr := !s.inStr }
  else if s.inStr then s
  else
    let s1 := if c = '[' ∨ c = '\x7b' then { s with depth := s.depth + 1 } else s
    if c = ']' ∨ c = '\x7d' then
      let s2 := { s1 with depth := s1.depth - 1 }
      if s2.depth = 1 ∧ c = '\x7d' then { s2 with lastEnd := (i : ℤ) } else s2
    else s1

/-- The JS `for` loop over the characters of the input. -/
def scanFrom (i : Nat) (s : ScanSt) : List Char → ScanSt
  | [] => s
  | c :: cs => scanFrom (i + 1) (scanStep i s c) cs

/-- `repairTruncatedJsonArray` (threat-generator.ts lines 441-472):
scan, then — if a complete element was found
(`lastCompleteObjectEnd > 0`) — truncate after it and close the array;
otherwise the JS throws, modelled as `none`. -/
def repairTruncatedJsonArray (jsonStr : String) : Option String :=
  let st := scanFrom 0 ⟨0, false, false, -1⟩ jsonStr.toList
  if st.lastEnd > 0 then
    some (String.mk (jsonStr.toList.take (st.lastEnd.toNat + 1)) ++ "]")
  else none

/-- The core-state part of one scan iteration (no index needed). -/
def scanCoreStep (s : ScanCore) (c : Char) : ScanCore :=
  if s.esc then { s with esc := false }
  else if c = '\\' then { s with esc := true }
  else if c = '"' then { s with inStr := !s.inStr }
  else if s.inStr then s
  else
    let s1 := if c = '[' ∨ c = '\x7b' then { s with depth := s.depth + 1 } else s
    if c = ']' ∨ c = '\x7d' then { s1 with depth := s1.depth - 1 } else s1

/-- Core state after scanning a character list. -/
def scanCore (s : ScanCore) : List Char → ScanCore
  | [] => s
  | c :: cs => scanCore (scanCoreStep s c) cs

/-- Does this step record a new `lastCompleteObjectEnd`?  Exactly when
the scanner is outside strings/escapes and a `}` closes from depth 2
back to depth 1. -/
def closes1 (s : ScanCore) (c : Char) : Bool :=
  !s.esc && !s.inStr && (c == '\x7d') && (s.depth == 2)

/-- `lastCompleteObjectEnd` after scanning `cs` starting at index `i`
in core state `s` with current value `l`. -/
def lastClose (s : ScanCore) (i : Nat) (cs : List Char) (l : ℤ) : ℤ :=
  match cs with
  | [] => l
  | c :: rest => lastClose (scanCoreStep s c) (i + 1) rest (if closes1 s c then (i : ℤ) else l)

/-- Pack a core state and a `lastCompleteObjectEnd` into the full scan
state. -/
def mkSt (s : ScanCore) (l : ℤ) : ScanSt :=
  ⟨s.depth, s.inStr, s.esc, l⟩

/-- No step of the scan over `cs`, started in core state `s`, records a
`lastCompleteObjectEnd`. -/
def NoFire (s : ScanCore) : List Char → Prop
  | [] => True
  | c :: cs => closes1 s c = false ∧ NoFire (scanCoreStep s c) cs

/-- Characters with no structural meaning for the scan. -/
def plainChar (c : Char) : Bool :=
  !(c == '"' || c == '\\' || c == '[' || c == ']' || c == '\x7b' || c == '\x7d')

/-! ### A model of serialized JSON values

The threat array the model returns is an array of objects whose fields
are strings, numbers, booleans, null, nested arrays and nested objects.
`render` produces the canonical (whitespace-free) serialization; string
contents escape `"` and `\`. -/

mutual
inductive JVal where
  | jnull : JVal
  | jbool : Bool → JVal
  | jnum : Nat → JVal
  | jstr : String → JVal
  | jarr : JArr → JVal
  | jobj : JObj → JVal
inductive JArr where
  | anil : JArr
  | acons : JVal → JArr → JArr
inductive JObj where
  | onil : JObj
  | ocons : String → JVal → JObj → JObj
end

/-- Is this value an object? -/
def JVal.isObj : JVal → Bool
  | .jobj _ => true
  | _ => false

/-- Are all elements of the array objects? -/
def allObjs : JArr → Bool
  | .anil => true
  | .acons v tl => v.isObj && allObjs tl

/-- Number of elements. -/
def jarrLength : JArr → Nat
  | .anil => 0
  | .acons _ tl => jarrLength tl + 1

/-- JSON string escaping of one character. -/
def escChar (c : Char) : List Char :=
  if c = '"' ∨ c = '\\' then ['\\', c] else [c]

/-- JSON string escaping of a character list. -/
def escList : List Char → List Char
  | [] => []
  | c :: cs => escChar c ++ escList cs

/-- Serialized JSON string literal. -/
def renderStr (s : String) : List Char :=
  '"' :: (escList s.toList ++ ['"'])

/-- Decimal digit character. -/
def digitChar (n : Nat) : Char :=
  if n = 0 then '0' else if n = 1 then '1' else if n = 2 then '2'
  else if n = 3 then '3' else if n = 4 then '4' else if n = 5 then '5'
  else if n = 6 then '6' else if n = 7 then '7' else if n = 8 then '8'
  else '9'

/-- Decimal digits of a number, fuel-bounded accumulator style (the
fuel keeps the recursion structural so the kernel can evaluate it). -/
def natDigitsAux : Nat → Nat → List Char → List Char
  | 0, _, acc => acc
  | _ + 1, 0, acc => acc
  | fuel + 1, n, acc => natDigitsAux fuel (n / 10) (digitChar (n % 10) :: acc)

/-- Decimal rendering of a number. -/
def natDigits (n : Nat) : List Char :=
  if n = 0 then ['0'] else natDigitsAux n n []

mutual
/-- Canonical serialization of a JSON value. -/
def render : JVal → List Char
  | .jnull => ['n', 'u', 'l', 'l']
  | .jbool true => ['t', 'r', 'u', 'e']
  | .jbool false => ['f', 'a', 'l', 's', 'e']
  | .jnum n => natDigits n
  | .jstr s => renderStr s
  | .jarr es => '[' :: (renderArr es ++ [']'])
  | .jobj fs => '\x7b' :: (renderObj fs ++ ['\x7d'])
/-- Comma-separated serialization of array elements. -/
def renderArr : JArr → List Char
  | .anil => []
  | .acons v .anil => render v
  | .acons v (.acons w tl) => render v ++ (',' :: renderArr (.acons w tl))
/-- Comma-separated serialization of object fields. -/
def renderObj : JObj → List Char
  | .onil => []
  | .ocons k v .onil => renderStr k ++ (':' :: render v)
  | .ocons k v (.ocons k2 v2 tl) =>
    renderStr k ++ (':' :: render v) ++ (',' :: renderObj (.ocons k2 v2 tl))
end

/-- Scanning `X` at depth `d`, outside strings and escapes, returns to
the same state and never records a `lastCompleteObjectEnd`. -/
def ScanNeutral (d : ℤ) (X : List Char) : Prop :=
  scanCore ⟨d, false, false⟩ X = ⟨d, false, false⟩ ∧ NoFire ⟨d, false, false⟩ X

/-! ## Threat generator data model — threat-generator.ts lines 11-40 -/

inductive StrideCategory where
  | Spoofing
  | Tampering
  | Repudiation
  | InformationDisclosure
  | DenialOfService
  | ElevationOfPrivilege
deriving DecidableEq, Repr

/-- The literal STRIDE category strings. -/
def StrideCategory.label : StrideCategory → String
  | .Spoofing => "Spoofing"
  | .Tampering => "Tampering"
  | .Repudiation => "Repudiation"
  | .InformationDisclosure => "Information Disclosure"
  | .DenialOfService => "Denial of Service"
  | .ElevationOfPrivilege => "Elevation of Privilege"

/-- A mitigation entry (threat-generator.ts lines 28-34). -/
structure Mitigation where
  description : String
  codeFile : Option String
  codeLine : Option Nat
  codeOriginal : Option String
  codeFixed : Option String
deriving DecidableEq, Repr

/-- `GeneratedThreat` (threat-generator.ts lines 11-38).  `severity` is
the upstream-suggested severity text (the TS type excludes "Note"; the
`RiskSeverity` type is a faithful superset).  `owaspLikelihood` and
`owaspImpact` are optional full factor objects. -/
structure GeneratedThreat where
  title : String
  strideCategory : StrideCategory
  severity : RiskSeverity
  threatSource : String
  prerequisites : String
  threatAction : String
  threatImpact : String
  impactedAssets : List String
  trustBoundary : String
  assumptions : List String
  mitigations : List Mitigation
  relatedCve : Option String
  owaspLikelihood : Option OwaspLikelihood
  owaspImpact : Option OwaspImpact
deriving DecidableEq, Repr

/-- View a full likelihood object as the `Partial<OwaspLikelihood>`
argument of `calculateRiskRating` (every field present). -/
def OwaspLikelihood.toRaw (l : OwaspLikelihood) : RawLikelihood :=
  { skillLevel := some (l.skillLevel : ℚ),
    motive := some (l.motive : ℚ),
    opportunity := some (l.opportunity : ℚ),
    size := some (l.size : ℚ),
    easeOfDiscovery := some (l.easeOfDiscovery : ℚ),
    easeOfExploit := some (l.easeOfExploit : ℚ),
    awareness := some (l.awareness : ℚ),
    intrusionDetection := some (l.intrusionDetection : ℚ) }

/-- View a full impact object as a `Partial<OwaspImpact>`. -/
def OwaspImpact.toRaw (i : OwaspImpact) : RawImpact :=
  { confidentiality := some (i.confidentiality : ℚ),
    integrity := some (i.integrity : ℚ),
    availability := some (i.availability : ℚ),
    accountability := some (i.accountability : ℚ) }

/-! ## Persistence of threats — src/unnamed/part_006

Both `analyzeGitHubRepo` (lines 103-130) and `analyzeDesignDoc` (lines
198-224) persist each generated threat with
`calculateRiskRating(gt.owaspLikelihood, gt.owaspImpact)` recomputed at
the persistence site and
`severity: riskRating.riskSeverity === "Note" ? "Low" : riskRating.riskSeverity`. -/

/-- The rating recomputed at the persistence site. -/
def persistedRiskRating (gt : GeneratedThreat) : OwaspRiskRating :=
  calculateRiskRating (gt.owaspLikelihood.map OwaspLikelihood.toRaw)
    (gt.owaspImpact.map OwaspImpact.toRaw)

/-- The fields of the `createThreat` row that derive from the generated
threat (ids and session references omitted: they derive from the
session, not the threat). -/
structure ThreatRow where
  title : String
  strideCategory : StrideCategory
  severity : RiskSeverity
  threatSource : String
  prerequisites : String
  threatAction : String
  threatImpact : String
  impactedAssets : List String
  trustBoundary : String
  assumptions : List String
  relatedCve : Option String
  owaspLikelihoodScore : ℚ
  owaspImpactScore : ℚ
  owaspRiskLevel : RiskSeverity
  owaspFactorsLikelihood : OwaspLikelihood
  owaspFactorsImpact : OwaspImpact
deriving DecidableEq, Repr

/-- The `createThreat` row built by `analyzeGitHubRepo`
(src/unnamed/part_006 lines 107-130). -/
def repoThreatRow (gt : GeneratedThreat) : ThreatRow :=
  let riskRating := persistedRiskRating gt
  { title := gt.title,
    strideCategory := gt.strideCategory,
    severity := if riskRating.riskSeverity = .Note then .Low else riskRating.riskSeverity,
    threatSource := gt.threatSource,
    prerequisites := gt.prerequisites,
    threatAction := gt.threatAction,
    threatImpact := gt.threatImpact,
    impactedAssets := gt.impactedAssets,
    trustBoundary := gt.trustBoundary,
    assumptions := gt.assumptions,
    relatedCve := gt.relatedCve,
    owaspLikelihoodScore := riskRating.likelihoodScore,
    owaspImpactScore := riskRating.impactScore,
    owaspRiskLevel := riskRating.riskSeverity,
    owaspFactorsLikelihood := riskRating.likelihood,
    owaspFactorsImpact := riskRating.impact }

/-- The `createThreat` row built by `analyzeDesignDoc`
(src/unnamed/part_006 lines 202-224); identical except that no
`relatedCve` is passed. -/
def docThreatRow (gt : GeneratedThreat) : ThreatRow :=
  let riskRating := persistedRiskRating gt
  { title := gt.title,
    strideCategory := gt.strideCategory,
    severity := if riskRating.riskSeverity = .Note then .Low else riskRating.riskSeverity,
    threatSource := gt.threatSource,
    prerequisites := gt.prerequisites,
    threatAction := gt.threatAction,
    threatImpact := gt.threatImpact,
    impactedAssets := gt.impactedAssets,
    trustBoundary := gt.trustBoundary,
    assumptions := gt.assumptions,
    relatedCve := none,
    owaspLikelihoodScore := riskRating.likelihoodScore,
    owaspImpactScore := riskRating.impactScore,
    owaspRiskLevel := riskRating.riskSeverity,
    owaspFactorsLikelihood := riskRating.likelihood,
    owaspFactorsImpact := riskRating.impact }

/-! ## Repo analysis data model — repo-analyzer.ts lines 8-45 -/

inductive ComponentType where
  | api
  | service
  | database
  | queue
  | gateway
  | external
  | frontend
  | config
deriving DecidableEq, Repr

structure ComponentInfo where
  name : String
  type : ComponentType
  files : List String
  description : String
deriving DecidableEq, Repr

/-- A data flow; the source fields are named `from`/`to` (renamed here
because `from` is a Lean keyword). -/
structure DataFlow where
  source : String
  target : String
  protocol : String
  dataType : String
deriving DecidableEq, Repr

structure TrustBoundary where
  name : String
  components : List String
deriving DecidableEq, Repr

/-- A `SecurityFinding`; `severity` is the literal severity string
("Critical" | "High" | "Medium" | "Low"). -/
structure SecurityFinding where
  file : String
  line : Nat
  pattern : String
  snippet : String
  severity : String
deriving DecidableEq, Repr

structure RepoAnalysis where
  repoUrl : String
  languages : List String
  frameworks : List String
  components : List ComponentInfo
  dataFlows : List DataFlow
  trustBoundaries : List TrustBoundary
  securityFindings : List SecurityFinding
  fileTree : List String
  entryPoints : List String
deriving DecidableEq, Repr

/-! ## Demo fallback threats — threat-generator.ts lines 141-214 -/

/-- JS `s1 || s2` on strings: the empty string is falsy. -/
def jsStrOr (s d : String) : String :=
  if s = "" then d else s

/-- JS `o?.x || d`. -/
def jsStrOrOpt (o : Option String) (d : String) : String :=
  match o with
  | none => d
  | some s => jsStrOr s d

/-- Does `pat` occur (contiguously) anywhere in the list? -/
def subOccurs (pat : List Char) : List Char → Bool
  | [] => pat.isEmpty
  | c :: rest => pat.isPrefixOf (c :: rest) || subOccurs pat rest

/-- Substring test (JS `String.prototype.includes`). -/
def containsSub (s pat : String) : Bool :=
  subOccurs pat.toList s.toList

/-- The STRIDE cycling order (threat-generator.ts lines 143-146). -/
def demoCategories : List StrideCategory :=
  [.Spoofing, .Tampering, .Repudiation, .InformationDisclosure,
   .DenialOfService, .ElevationOfPrivilege]

/-- `severityMap` (threat-generator.ts lines 151-153): keyed by the
lowercase strings "high"/"medium"/"low" — note the finding severities
are capitalized, so this lookup always misses and falls back. -/
def severityMapDemo (s : String) : Option RiskSeverity :=
  if s = "high" then some .Critical
  else if s = "medium" then some .High
  else if s = "low" then some .Medium
  else none

/-- Replace the first occurrence of the literal `pat` (JS
`String.replace` with a non-global pattern). -/
def replaceFirstLit : List Char → List Char → List Char → List Char
  | [], _, _ => []
  | c :: rest, pat, repl =>
    if pat.isPrefixOf (c :: rest) then repl ++ (c :: rest).drop pat.length
    else c :: replaceFirstLit rest pat repl

/-- Match `\s*req\.` at the head of the list, returning the matched
length. -/
def matchWsReq (l : List Char) : Option Nat :=
  let ws := l.takeWhile (fun c => c.isWhitespace)
  let rest := l.drop ws.length
  if ("req.".toList).isPrefixOf rest then some (ws.length + 4) else none

/-- Replace the first occurrence of `/\+\s*req\./` with
`"+ sanitize(req."`. -/
def replacePlusReq : List Char → List Char
  | [] => []
  | c :: rest =>
    if c = '+' then
      match matchWsReq rest with
      | some k => ("+ sanitize(req.".toList) ++ rest.drop k
      | none => c :: replacePlusReq rest
    else c :: replacePlusReq rest

/-- The chained snippet rewrites of the demo mitigation
(threat-generator.ts line 174): first occurrence of `eval(`, of
`/\+\s*req\./`, and of `cors()` (JS `replace` with non-global patterns
replaces only the first occurrence). -/
def demoFixSnippet (snippet : String) : String :=
  let s1 := replaceFirstLit snippet.toList ("eval(".toList) ("safeEval(".toList)
  let s2 := replacePlusReq s1
  let s3 := replaceFirstLit s2 ("cors()".toList)
    ("cors(\x7b origin: allowedOrigins \x7d)".toList)
  String.mk s3

/-- The per-category impact text of the finding-based demo threats
(threat-generator.ts line 161). -/
def demoFindingImpact : StrideCategory → String
  | .InformationDisclosure => "exposure of sensitive data"
  | .Tampering => "unauthorized data modification"
  | .Spoofing => "identity impersonation"
  | .ElevationOfPrivilege => "unauthorized access to privileged operations"
  | .DenialOfService => "service unavailability"
  | .Repudiation => "inability to trace malicious actions"

/-- One finding-based demo threat (threat-generator.ts lines 149-178);
`idx` is `threats.length` at push time. -/
def demoFindingThreat (analysis : RepoAnalysis) (idx : Nat)
    (finding : SecurityFinding) : GeneratedThreat :=
  let strideCat := demoCategories.getD (idx % 6) .Spoofing
  { title := strideCat.label ++ ": " ++ finding.pattern.replace "_" " " ++ " in " ++
      ((finding.file.splitOn "/").getLast?.getD ""),
    strideCategory := strideCat,
    severity := (severityMapDemo finding.severity).getD .Medium,
    threatSource := "An external attacker",
    prerequisites := "Access to the " ++
      (if containsSub finding.file "api" then "API endpoint" else "application input") ++
      " that reaches this code path",
    threatAction := "can exploit " ++ finding.pattern.replace "_" " " ++ " at " ++
      finding.file ++ ":" ++ toString finding.line,
    threatImpact := "which leads to " ++ demoFindingImpact strideCat,
    impactedAssets := finding.file :: (analysis.components.take 2).map (fun c => c.name),
    trustBoundary := jsStrOrOpt ((analysis.trustBoundaries.head?).map (fun b => b.name))
      "External → Internal",
    assumptions := ["Application is internet-facing",
      "Input validation is incomplete",
      "The code in " ++ finding.file ++ " is reachable from external requests"],
    mitigations := [{
      description := "Fix the " ++ finding.pattern.replace "_" " " ++
        " vulnerability by applying secure coding practices",
      codeFile := some finding.file,
      codeLine := some finding.line,
      codeOriginal := some finding.snippet,
      codeFixed := some ("// FIXED: " ++ finding.pattern ++ " remediated\n" ++
        demoFixSnippet finding.snippet) }],
    relatedCve := none,
    owaspLikelihood := none,
    owaspImpact := none }

/-- The loop over `analysis.securityFindings.slice(0, 6)`. -/
def demoFindingLoop (analysis : RepoAnalysis) :
    List SecurityFinding → List GeneratedThreat → List GeneratedThreat
  | [], acc => acc
  | f :: rest, acc =>
    demoFindingLoop analysis rest (acc ++ [demoFindingThreat analysis acc.length f])

/-- The fixed architecture-level demo threat table (threat-generator.ts
lines 181-188): title, category, advisory severity, boundary. -/
def demoArchThreats : List (String × StrideCategory × RiskSeverity × String) :=
  [("Insufficient Authentication on API Gateway", .Spoofing, .High, "Client → API"),
   ("Missing Rate Limiting on Public Endpoints", .DenialOfService, .High, "External → Internal"),
   ("Insecure Data Transmission Between Services", .InformationDisclosure, .Medium, "Service → Service"),
   ("Missing Audit Logging for Administrative Actions", .Repudiation, .Medium, "Admin → System"),
   ("Improper Input Validation at Trust Boundary", .Tampering, .High, "External → Internal"),
   ("Overly Permissive Role-Based Access Controls", .ElevationOfPrivilege, .Critical, "User → Admin")]

/-- Impact text per category for the architecture-level demo threats
(threat-generator.ts line 199). -/
def demoArchImpact : StrideCategory → String
  | .Spoofing => "unauthorized identity assumption"
  | .DenialOfService => "resource exhaustion and service degradation"
  | .InformationDisclosure => "leakage of sensitive business data"
  | .Repudiation => "inability to audit security-relevant events"
  | .Tampering => "unauthorized modification of application state"
  | .ElevationOfPrivilege => "privilege escalation to administrative functions"

/-- Mitigation text per category (threat-generator.ts line 207). -/
def demoArchMitigation : StrideCategory → String
  | .Spoofing => "multi-factor authentication and token validation"
  | .DenialOfService => "rate limiting with exponential backoff"
  | .InformationDisclosure => "TLS 1.3 for all inter-service communication"
  | .Repudiation => "comprehensive audit logging with tamper-proof storage"
  | .Tampering => "strict input validation and schema enforcement"
  | .ElevationOfPrivilege => "least-privilege RBAC with regular access reviews"

/-- One architecture-level demo threat (threat-generator.ts lines
190-211); `idx` is `threats.length` at push time. -/
def demoArchThreat (analysis : RepoAnalysis) (idx : Nat)
    (a : String × StrideCategory × RiskSeverity × String) : GeneratedThreat :=
  let comp := analysis.components.get? (idx % max analysis.components.length 1)
  { title := a.1,
    strideCategory := a.2.1,
    severity := a.2.2.1,
    threatSource := "An authenticated or unauthenticated user",
    prerequisites := "Network access to the " ++
      jsStrOrOpt (comp.map (fun c => c.name)) "application" ++ " component",
    threatAction := "can exploit " ++ a.1.toLower ++ " at the " ++ a.2.2.2 ++ " boundary",
    threatImpact := "which leads to " ++ demoArchImpact a.2.1,
    impactedAssets := match comp with
      | some c => c.files.take 3
      | none => ["Application"],
    trustBoundary := a.2.2.2,
    assumptions := ["The " ++ jsStrOrOpt (comp.map (fun c => c.name)) "system" ++
        " component handles sensitive operations",
      "Standard security controls may be incomplete"],
    mitigations := [{
      description := "Implement " ++ demoArchMitigation a.2.1,
      codeFile := none, codeLine := none, codeOriginal := none, codeFixed := none }],
    relatedCve := none,
    owaspLikelihood := none,
    owaspImpact := none }

/-- The loop over `archThreats.slice(0, Math.max(2, 8 - threats.length))`. -/
def demoArchLoop (analysis : RepoAnalysis) :
    List (String × StrideCategory × RiskSeverity × String) →
      List GeneratedThreat → List GeneratedThreat
  | [], acc => acc
  | a :: rest, acc =>
    demoArchLoop analysis rest (acc ++ [demoArchThreat analysis acc.length a])

/-- `generateDemoThreats` (threat-generator.ts lines 141-214). -/
def generateDemoThreats (analysis : RepoAnalysis) : List GeneratedThreat :=
  let threats1 := demoFindingLoop analysis (analysis.securityFindings.take 6) []
  demoArchLoop analysis (demoArchThreats.take (max 2 (8 - threats1.length))) threats1

/-! ## LLM call layer — src/unnamed/part_001 -/

inductive LLMProvider where
  | anthropic
  | gemini
deriving DecidableEq, Repr

/-- `LLMConfig` (src/unnamed/part_001 lines 6-11). -/
structure LLMConfig where
  provider : LLMProvider
  apiKey : String
  model : Option String
  geminiEndpoint : Option String
deriving DecidableEq, Repr

/-- The request options passed to a provider SDK call.  `timeout` and
`maxRetries` are the SDK's per-request options; the code passes
neither, so both are `none` in every request it builds. -/
structure ProviderRequest where
  model : String
  maxTokens : Nat
  system : String
  userContent : String
  timeout : Option Nat
  maxRetries : Option Nat
deriving DecidableEq, Repr

/-- The single request `callAnthropic` issues (src/unnamed/part_001
lines 74-95): fixed model, `max_tokens`, system and user prompts; no
timeout or retry option. -/
def callAnthropicRequest (systemPrompt userPrompt : String) (_cfg : LLMConfig)
    (maxTokens : Nat) : ProviderRequest :=
  { model := "claude-sonnet-4-5-20250929",
    maxTokens := maxTokens,
    system := systemPrompt,
    userContent := userPrompt,
    timeout := none,
    maxRetries := none }

/-- The single request `callGemini` issues (src/unnamed/part_001 lines
97-125): configured or default model, `maxOutputTokens`, system
instruction; no timeout or retry option. -/
def callGeminiRequest (systemPrompt userPrompt : String) (cfg : LLMConfig)
    (maxTokens : Nat) : ProviderRequest :=
  { model := cfg.model.getD "gemini-2.5-flash",
    maxTokens := maxTokens,
    system := systemPrompt,
    userContent := userPrompt,
    timeout := none,
    maxRetries := none }

/-- The provider requests one `callLLM` invocation issues
(src/unnamed/part_001 lines 62-72): exactly one request, dispatched on
the provider; there is no retry loop anywhere in the call path. -/
def callLLMRequests (systemPrompt userPrompt : String) (cfg : LLMConfig)
    (maxTokens : Nat) : List ProviderRequest :=
  match cfg.provider with
  | .gemini => [callGeminiRequest systemPrompt userPrompt cfg maxTokens]
  | .anthropic => [callAnthropicRequest systemPrompt userPrompt cfg maxTokens]

/-! ## Architecture Extractor — repo-analyzer.ts lines 392-605

The seven file-classification filters (lines 407-514) select files by
path regexes and content sniffs (file reads); their results are taken
here as parameters `apiFiles … gatewayFiles, srcFiles`, so the theorems
hold for every classification outcome.  The component construction,
data-flow rules and trust-boundary construction mirror lines 412-604
exactly. -/

structure ArchResult where
  components : List ComponentInfo
  dataFlows : List DataFlow
  trustBoundaries : List TrustBoundary
deriving DecidableEq, Repr

/-- The API component push (repo-analyzer.ts lines 412-419). -/
def apiComp (apiFiles : List String) : ComponentInfo :=
  ⟨"API Server", .api, apiFiles.take 20,
    "API layer with " ++ toString apiFiles.length ++ " route/controller files"⟩

/-- The frontend component push (lines 427-434). -/
def frontendComp (frontendFiles : List String) : ComponentInfo :=
  ⟨"Frontend Application", .frontend, frontendFiles.take 20,
    "Frontend with " ++ toString frontendFiles.length ++ " component/page files"⟩

/-- The database component push (lines 446-453). -/
def dbComp (dbFiles : List String) : ComponentInfo :=
  ⟨"Database", .database, dbFiles.take 10, "Data persistence layer"⟩

/-- The message-queue component push (lines 465-472). -/
def queueComp (queueFiles : List String) : ComponentInfo :=
  ⟨"Message Queue", .queue, queueFiles.take 10, "Asynchronous messaging layer"⟩

/-- The auth-service component push (lines 478-485). -/
def authComp (authFiles : List String) : ComponentInfo :=
  ⟨"Auth Service", .service, authFiles.take 10,
    "Authentication and authorization service"⟩

/-- The infrastructure component push (lines 494-501). -/
def infraComp (infraFiles : List String) : ComponentInfo :=
  ⟨"Infrastructure", .config, infraFiles.take 10,
    "Infrastructure and configuration files"⟩

/-- The gateway component push (lines 507-514). -/
def gatewayComp (gatewayFiles : List String) : ComponentInfo :=
  ⟨"API Gateway", .gateway, gatewayFiles.take 10, "API gateway or reverse proxy"⟩

/-- The generic fallback component (lines 517-527). -/
def appComp (srcFiles : List String) : ComponentInfo :=
  ⟨"Application", .service, srcFiles.take 20,
    "Application with " ++ toString srcFiles.length ++ " source files"⟩

/-- The synthetic external entity (lines 538-543). -/
def endUserComp : ComponentInfo :=
  ⟨"End User", .external, [], "External user accessing the application"⟩

/-- The sequence of conditional component pushes (lines 407-514), in
push order. -/
def baseComponents (apiFiles frontendFiles dbFiles queueFiles authFiles
    infraFiles gatewayFiles : List String) : List ComponentInfo :=
  (if apiFiles ≠ [] then [apiComp apiFiles] else []) ++
  (if frontendFiles ≠ [] then [frontendComp frontendFiles] else []) ++
  (if dbFiles ≠ [] then [dbComp dbFiles] else []) ++
  (if queueFiles ≠ [] then [queueComp queueFiles] else []) ++
  (if authFiles ≠ [] then [authComp authFiles] else []) ++
  (if infraFiles ≠ [] then [infraComp infraFiles] else []) ++
  (if gatewayFiles ≠ [] then [gatewayComp gatewayFiles] else [])

/-- The component list before the End User push, including the generic
fallback when no category matched (lines 516-527). -/
def componentsPre (apiFiles frontendFiles dbFiles queueFiles authFiles
    infraFiles gatewayFiles srcFiles : List String) : List ComponentInfo :=
  if baseComponents apiFiles frontendFiles dbFiles queueFiles authFiles
      infraFiles gatewayFiles = [] then
    [appComp srcFiles]
  else
    baseComponents apiFiles frontendFiles dbFiles queueFiles authFiles
      infraFiles gatewayFiles

/-- `extractArchitecture` (repo-analyzer.ts lines 392-605) given the
seven classification filter results and the recognised source files
used by the generic fallback.  The `hasX` values mirror the
`components.find(...)` calls at lines 530-535; flows mirror lines
545-570; boundaries mirror lines 572-602. -/
def extractArchitecture (apiFiles frontendFiles dbFiles queueFiles authFiles
    infraFiles gatewayFiles srcFiles : List String) : ArchResult :=
  let pre := componentsPre apiFiles frontendFiles dbFiles queueFiles authFiles
    infraFiles gatewayFiles srcFiles
  let hasApi := pre.find? (fun c => c.type == .api)
  let hasDb := pre.find? (fun c => c.type == .database)
  let hasQueue := pre.find? (fun c => c.type == .queue)
  let hasAuth := pre.find? (fun c => c.name == "Auth Service")
  let hasFrontend := pre.find? (fun c => c.type == .frontend)
  let hasGateway := pre.find? (fun c => c.type == .gateway)
  let components := pre ++ [endUserComp]
  let dataFlows : List DataFlow :=
    (if hasFrontend.isSome ∧ hasApi.isSome then
      [⟨"End User", "Frontend Application", "HTTPS", "User Requests"⟩,
       ⟨"Frontend Application", "API Server", "HTTPS/REST", "API Calls"⟩]
     else if hasApi.isSome then
      [⟨"End User", if hasGateway.isSome then "API Gateway" else "API Server",
        "HTTPS", "API Requests"⟩]
     else []) ++
    (if hasGateway.isSome ∧ hasApi.isSome then
      [⟨"API Gateway", "API Server", "HTTP/Internal", "Proxied Requests"⟩] else []) ++
    (if hasAuth.isSome ∧ hasApi.isSome then
      [⟨"API Server", "Auth Service", "Internal", "Auth Tokens"⟩] else []) ++
    (if hasApi.isSome ∧ hasDb.isSome then
      [⟨"API Server", "Database", "TCP", "Queries/Data"⟩] else []) ++
    (if hasAuth.isSome ∧ hasDb.isSome then
      [⟨"Auth Service", "Database", "TCP", "User Credentials"⟩] else []) ++
    (if hasQueue.isSome ∧ hasApi.isSome then
      [⟨"API Server", "Message Queue", "AMQP/MQTT", "Events/Commands"⟩] else [])
  let internalComponents :=
    (components.filter (fun c => c.type != .external)).map (fun c => c.name)
  let externalComponents :=
    (components.filter (fun c => c.type == .external)).map (fun c => c.name)
  let tb1 : List TrustBoundary :=
    if internalComponents ≠ [] then [⟨"Application Boundary", internalComponents⟩] else []
  let tb2 : List TrustBoundary :=
    if externalComponents ≠ [] then [⟨"External", externalComponents⟩] else []
  let tb3 : List TrustBoundary :=
    match components.find? (fun c => c.type == .config) with
    | some ic => [⟨"Infrastructure", [ic.name]⟩]
    | none => []
  ⟨components, dataFlows, tb1 ++ tb2 ++ tb3⟩

/-- The data-flow rule table exactly as the claim states it
("frontend→API if both exist; else End User→(Gateway if present else
API); Gateway→API if both exist; API→Auth if both exist; API→Database
if both exist; Auth→Database if both exist; API→Queue if both exist —
and no other flows"), as (source, target) component-name pairs. -/
def claimTablePairs (frontend api gateway auth db queue : Prop)
    [Decidable frontend] [Decidable api] [Decidable gateway] [Decidable auth]
    [Decidable db] [Decidable queue] : List (String × String) :=
  (if frontend ∧ api then [("Frontend Application", "API Server")]
   else [("End User", if gateway then "API Gateway" else "API Server")]) ++
  (if gateway ∧ api then [("API Gateway", "API Server")] else []) ++
  (if auth ∧ api then [("API Server", "Auth Service")] else []) ++
  (if api ∧ db then [("API Server", "Database")] else []) ++
  (if auth ∧ db then [("Auth Service", "Database")] else []) ++
  (if queue ∧ api then [("API Server", "Message Queue")] else [])

/-- The amended rule table matching the code: when frontend and API both
exist the first rule emits the two flows End User→frontend and
frontend→API; otherwise, only if an API component exists, End User→
(Gateway if present else API); the remaining four rules are unchanged. -/
def amendedTablePairs (frontend api gateway auth db queue : Prop)
    [Decidable frontend] [Decidable api] [Decidable gateway] [Decidable auth]
    [Decidable db] [Decidable queue] : List (String × String) :=
  (if frontend ∧ api then
    [("End User", "Frontend Application"), ("Frontend Application", "API Server")]
   else if api then [("End User", if gateway then "API Gateway" else "API Server")]
   else []) ++
  (if gateway ∧ api then [("API Gateway", "API Server")] else []) ++
  (if auth ∧ api then [("API Server", "Auth Service")] else []) ++
  (if api ∧ db then [("API Server", "Database")] else []) ++
  (if auth ∧ db then [("Auth Service", "Database")] else []) ++
  (if queue ∧ api then [("API Server", "Message Queue")] else [])

/-! ## Pattern Scanner cap — repo-analyzer.ts lines 339-390

The detector registry rows (name, severity, description;
the compiled regexes themselves are not embeddable) and the per-file
scan loop.  Matches of one detector over one file's content are
abstracted as a list of (1-based line, trimmed snippet) pairs — the
data the JS loop derives from each `exec` match — so the theorems hold
for every match outcome. -/

structure PatternInfo where
  name : String
  severity : String
  description : String
deriving DecidableEq, Repr

/-- The `SECURITY_PATTERNS` registry rows (repo-analyzer.ts lines
71-132), in registration order. -/
def SECURITY_PATTERNS_INFO : List PatternInfo :=
  [⟨"hardcoded_secret", "Critical", "Hardcoded secret or API key found"⟩,
   ⟨"sql_concatenation", "Critical", "Potential SQL injection via string concatenation"⟩,
   ⟨"eval_usage", "High", "Use of eval/exec which may allow code injection"⟩,
   ⟨"missing_https", "Medium", "Non-HTTPS URL found (potential cleartext transmission)"⟩,
   ⟨"command_injection", "High", "System command execution (potential command injection)"⟩,
   ⟨"cors_wildcard", "Medium", "CORS wildcard configuration"⟩,
   ⟨"debug_enabled", "Low", "Debug mode enabled"⟩,
   ⟨"no_auth_check", "High", "Route handler potentially missing authentication"⟩,
   ⟨"insecure_deserialization", "High", "Potentially insecure deserialization"⟩,
   ⟨"weak_crypto", "Medium", "Weak cryptographic algorithm usage"⟩]

/-- Findings for `file` among the accumulated findings — the JS cap
check `findings.filter(f => f.file === relFile).length`. -/
def countFile (findings : List SecurityFinding) (file : String) : Nat :=
  (findings.filter (fun f => f.file == file)).length

/-- The inner `while` over one detector's matches (repo-analyzer.ts
lines 362-382): push a finding for each match; after each push, if the
file's findings have reached 10, break — out of this inner loop only. -/
def scanMatchesLoop (file : String) (det : PatternInfo) :
    List (Nat × String) → List SecurityFinding → List SecurityFinding
  | [], findings => findings
  | m :: ms, findings =>
    let findings2 := findings ++
      [⟨file, m.1, det.name, m.2, det.severity⟩]
    if 10 ≤ countFile findings2 file then findings2
    else scanMatchesLoop file det ms findings2

/-- The outer `for` over the detector registry (repo-analyzer.ts lines
359-383) for one file, with each detector's matches given. -/
def scanDetectorsLoop (file : String) :
    List (PatternInfo × List (Nat × String)) →
      List SecurityFinding → List SecurityFinding
  | [], findings => findings
  | (det, ms) :: rest, findings =>
    scanDetectorsLoop file rest (scanMatchesLoop file det ms findings)

/-- Scanning one file against a detector list, starting from the
findings accumulated for previous files. -/
def scanFileModel (file : String)
    (dets : List (PatternInfo × List (Nat × String)))
    (findings : List SecurityFinding) : List SecurityFinding :=
  scanDetectorsLoop file dets findings

/-! Basic facts about `clamp`. -/

theorem clamp_nonneg (v : ℚ) : 0 ≤ clamp v :=
  le_max_left 0 _

theorem clamp_le_nine (v : ℚ) : clamp v ≤ 9 :=
  max_le (by norm_num) (min_le_left 9 _)

theorem clamp_five : clamp 5 = 5 := by
  norm_num [clamp, round_eq]

theorem getLevel_low_iff (s : ℚ) : getLevel s = .LOW ↔ s < 3 := by
  unfold getLevel
  split_ifs with h1 h2 <;> simp_all <;> linarith

theorem getLevel_medium_iff (s : ℚ) : getLevel s = .MEDIUM ↔ 3 ≤ s ∧ s < 6 := by
  unfold getLevel
  split_ifs with h1 h2 <;> simp_all <;> constructor <;> intro h <;> linarith

theorem getLevel_high_iff (s : ℚ) : getLevel s = .HIGH ↔ 6 ≤ s := by
  unfold getLevel
  split_ifs with h1 h2 <;> simp_all <;> linarith

/-- C2: score bucketing has exact boundaries (`<3 → LOW`, `<6 → MEDIUM`,
`else → HIGH`, so 2.99 → LOW, 3.00 → MEDIUM, 5.99 → MEDIUM, 6.00 → HIGH)
and the final severity of every computed rating is the total 3×3
`RISK_MATRIX` lookup on (impactLevel, likelihoodLevel), whose nine
entries are HIGH/HIGH→Critical, HIGH/MEDIUM→High, MEDIUM/HIGH→High,
HIGH/LOW→Medium, MEDIUM/MEDIUM→Medium, LOW/HIGH→Medium, MEDIUM/LOW→Low,
LOW/MEDIUM→Low, LOW/LOW→Note. -/
theorem riskEngine_buckets_and_matrix :
    (∀ s : ℚ, (getLevel s = .LOW ↔ s < 3) ∧
      (getLevel s = .MEDIUM ↔ 3 ≤ s ∧ s < 6) ∧
      (getLevel s = .HIGH ↔ 6 ≤ s)) ∧
    getLevel (299/100) = .LOW ∧ getLevel 3 = .MEDIUM ∧
    getLevel (599/100) = .MEDIUM ∧ getLevel 6 = .HIGH ∧
    getRiskSeverity .HIGH .HIGH = .Critical ∧
    getRiskSeverity .HIGH .MEDIUM = .High ∧
    getRiskSeverity .MEDIUM .HIGH = .High ∧
    getRiskSeverity .HIGH .LOW = .Medium ∧
    getRiskSeverity .MEDIUM .MEDIUM = .Medium ∧
    getRiskSeverity .LOW .HIGH = .Medium ∧
    getRiskSeverity .MEDIUM .LOW = .Low ∧
    getRiskSeverity .LOW .MEDIUM = .Low ∧
    getRiskSeverity .LOW .LOW = .Note ∧
    ∀ rawL rawI, (calculateRiskRating rawL rawI).riskSeverity =
      getRiskSeverity (calculateRiskRating rawL rawI).impactLevel
        (calculateRiskRating rawL rawI).likelihoodLevel :=
  ⟨fun s => ⟨getLevel_low_iff s, getLevel_medium_iff s, getLevel_high_iff s⟩,
    by rw [getLevel_low_iff]; norm_num,
    by rw [getLevel_medium_iff]; norm_num,
    by rw [getLevel_medium_iff]; norm_num,
    by rw [getLevel_high_iff],
    rfl, rfl, rfl, rfl, rfl, rfl, rfl, rfl, rfl,
    fun _ _ => rfl⟩

theorem validateLikelihood_bounded (raw : Option RawLikelihood) :
    (0 ≤ (validateLikelihood raw).skillLevel ∧ (validateLikelihood raw).skillLevel ≤ 9) ∧
    (0 ≤ (validateLikelihood raw).motive ∧ (validateLikelihood raw).motive ≤ 9) ∧
    (0 ≤ (validateLikelihood raw).opportunity ∧ (validateLikelihood raw).opportunity ≤ 9) ∧
    (0 ≤ (validateLikelihood raw).size ∧ (validateLikelihood raw).size ≤ 9) ∧
    (0 ≤ (validateLikelihood raw).easeOfDiscovery ∧ (validateLikelihood raw).easeOfDiscovery ≤ 9) ∧
    (0 ≤ (validateLikelihood raw).easeOfExploit ∧ (validateLikelihood raw).easeOfExploit ≤ 9) ∧
    (0 ≤ (validateLikelihood raw).awareness ∧ (validateLikelihood raw).awareness ≤ 9) ∧
    (0 ≤ (validateLikelihood raw).intrusionDetection ∧ (validateLikelihood raw).intrusionDetection ≤ 9) := by
  cases raw with
  | none =>
    simp only [validateLikelihood, defaultLikelihood]
    norm_num
  | some r =>
    simp only [validateLikelihood]
    exact ⟨⟨clamp_nonneg _, clamp_le_nine _⟩, ⟨clamp_nonneg _, clamp_le_nine _⟩,
      ⟨clamp_nonneg _, clamp_le_nine _⟩, ⟨clamp_nonneg _, clamp_le_nine _⟩,
      ⟨clamp_nonneg _, clamp_le_nine _⟩, ⟨clamp_nonneg _, clamp_le_nine _⟩,
      ⟨clamp_nonneg _, clamp_le_nine _⟩, ⟨clamp_nonneg _, clamp_le_nine _⟩⟩

theorem validateImpact_bounded (raw : Option RawImpact) :
    (0 ≤ (validateImpact raw).confidentiality ∧ (validateImpact raw).confidentiality ≤ 9) ∧
    (0 ≤ (validateImpact raw).integrity ∧ (validateImpact raw).integrity ≤ 9) ∧
    (0 ≤ (validateImpact raw).availability ∧ (validateImpact raw).availability ≤ 9) ∧
    (0 ≤ (validateImpact raw).accountability ∧ (validateImpact raw).accountability ≤ 9) := by
  cases raw with
  | none =>
    simp only [validateImpact, defaultImpact]
    norm_num
  | some r =>
    simp only [validateImpact]
    exact ⟨⟨clamp_nonneg _, clamp_le_nine _⟩, ⟨clamp_nonneg _, clamp_le_nine _⟩,
      ⟨clamp_nonneg _, clamp_le_nine _⟩, ⟨clamp_nonneg _, clamp_le_nine _⟩⟩

/-! ### Risk-factor validation over the full JS number domain

On absent-or-finite inputs the full model agrees with the restricted
rational model (`validateLikelihoodJs_agrees`,
`validateImpactJs_agrees`), but on a present `NaN` the two differ: the
spec's "invalid values default to 5" is false of the code, because
`clamp` propagates `NaN`. -/

theorem jsClamp_num (q : ℚ) : jsClamp (.num q) = .num ((clamp q : ℤ) : ℚ) := by
  simp only [jsClamp, jsRound, jsMin, jsMax, clamp]
  push_cast
  rfl

theorem jsClamp_nan : jsClamp .nan = .nan := rfl

theorem jsClamp_posInf : jsClamp .posInf = .num 9 := by
  norm_num [jsClamp, jsRound, jsMin, jsMax]

theorem jsClamp_negInf : jsClamp .negInf = .num 0 := rfl

theorem isIntInRange_intCast (k : ℤ) (h0 : 0 ≤ k) (h9 : k ≤ 9) :
    (JsNum.num (k : ℚ)).isIntInRange = true := by
  simp only [JsNum.isIntInRange, Bool.and_eq_true, beq_iff_eq, decide_eq_true_eq]
  refine ⟨⟨Rat.den_intCast k, ?_⟩, ?_⟩
  · exact_mod_cast h0
  · exact_mod_cast h9

theorem getD_map_num (o : Option ℚ) :
    (o.map JsNum.num).getD (.num 5) = .num (o.getD 5) := by
  cases o <;> rfl

/-- On the absent-or-finite restriction, the full-domain validation
agrees with the restricted rational model used elsewhere in this file. -/
theorem validateLikelihoodJs_agrees (r : Option RawLikelihood) :
    validateLikelihoodJs (r.map RawLikelihood.toJs) =
      (validateLikelihood r).toJsNum := by
  cases r with
  | none =>
    simp [validateLikelihoodJs, validateLikelihood, defaultLikelihoodJs,
      defaultLikelihood, OwaspLikelihood.toJsNum]
  | some r =>
    simp [validateLikelihoodJs, validateLikelihood, RawLikelihood.toJs,
      OwaspLikelihood.toJsNum, getD_map_num, jsClamp_num]

/-- Impact-side analogue of `validateLikelihoodJs_agrees`. -/
theorem validateImpactJs_agrees (r : Option RawImpact) :
    validateImpactJs (r.map RawImpact.toJs) = (validateImpact r).toJsNum := by
  cases r with
  | none =>
    simp [validateImpactJs, validateImpact, defaultImpactJs,
      defaultImpact, OwaspImpact.toJsNum]
  | some r =>
    simp [validateImpactJs, validateImpact, RawImpact.toJs,
      OwaspImpact.toJsNum, getD_map_num, jsClamp_num]

/-- C3, counterexample: a present invalid sub-factor — `NaN`, the
`ToNumber` image of any non-numeric value arriving through the
unchecked JSON cast — is NOT replaced by 5.  `??` substitutes only for
`null`/`undefined`, and `Math.round`, `Math.min` and `Math.max` all
return `NaN` on `NaN`, so the validated sub-factor is `NaN`: neither 5
nor an integer in [0,9]. -/
theorem riskEngine_factor_nan_counterexample :
    (validateLikelihoodJs (some
      { skillLevel := some .nan, motive := none, opportunity := none,
        size := none, easeOfDiscovery := none, easeOfExploit := none,
        awareness := none, intrusionDetection := none })).skillLevel =
      .nan ∧
    (validateImpactJs (some
      { confidentiality := some .nan, integrity := none,
        availability := none, accountability := none })).confidentiality =
      .nan ∧
    JsNum.nan ≠ JsNum.num 5 ∧
    JsNum.nan.isIntInRange = false :=
  ⟨rfl, rfl, by decide, rfl⟩

theorem validJs_num_field (q : ℚ) :
    jsClamp ((some (JsNum.num q)).getD (.num 5)) =
      .num ((clamp q : ℤ) : ℚ) := by
  rw [Option.getD_some, jsClamp_num]

/-- C3 (amended): for every raw factor input over the full JS number
domain, a sub-factor that is absent (`undefined`/`null`) — or belongs
to an entirely absent factor object — is replaced by the neutral
midpoint 5, and a present finite numeric sub-factor is rounded and
clamped to an integer in [0,9] (with `Infinity` clamping to 9 and
`-Infinity` to 0); but a present `NaN` — any invalid value that is not
a usable number — is NOT replaced by 5: `clamp` propagates it, and the
resulting sub-factor is `NaN`. -/
theorem riskEngine_factors_clamped_amended :
    validateLikelihoodJs none = defaultLikelihoodJs ∧
    validateImpactJs none = defaultImpactJs ∧
    (∀ q : ℚ, jsClamp (.num q) = .num ((clamp q : ℤ) : ℚ)) ∧
    (∀ q : ℚ, (jsClamp (.num q)).isIntInRange = true) ∧
    jsClamp .nan = .nan ∧
    jsClamp .posInf = .num 9 ∧
    jsClamp .negInf = .num 0 ∧
    (∀ p : RawLikelihoodJs, (validateLikelihoodJs (some { p with skillLevel := none })).skillLevel = .num 5) ∧
    (∀ p : RawLikelihoodJs, (validateLikelihoodJs (some { p with motive := none })).motive = .num 5) ∧
    (∀ p : RawLikelihoodJs, (validateLikelihoodJs (some { p with opportunity := none })).opportunity = .num 5) ∧
    (∀ p : RawLikelihoodJs, (validateLikelihoodJs (some { p with size := none })).size = .num 5) ∧
    (∀ p : RawLikelihoodJs, (validateLikelihoodJs (some { p with easeOfDiscovery := none })).easeOfDiscovery = .num 5) ∧
    (∀ p : RawLikelihoodJs, (validateLikelihoodJs (some { p with easeOfExploit := none })).easeOfExploit = .num 5) ∧
    (∀ p : RawLikelihoodJs, (validateLikelihoodJs (some { p with awareness := none })).awareness = .num 5) ∧
    (∀ p : RawLikelihoodJs, (validateLikelihoodJs (some { p with intrusionDetection := none })).intrusionDetection = .num 5) ∧
    (∀ p : RawImpactJs, (validateImpactJs (some { p with confidentiality := none })).confidentiality = .num 5) ∧
    (∀ p : RawImpactJs, (validateImpactJs (some { p with integrity := none })).integrity = .num 5) ∧
    (∀ p : RawImpactJs, (validateImpactJs (some { p with availability := none })).availability = .num 5) ∧
    (∀ p : RawImpactJs, (validateImpactJs (some { p with accountability := none })).accountability = .num 5) ∧
    (∀ p : RawLikelihoodJs, ∀ q : ℚ, (validateLikelihoodJs (some { p with skillLevel := some (.num q) })).skillLevel.isIntInRange = true) ∧
    (∀ p : RawLikelihoodJs, ∀ q : ℚ, (validateLikelihoodJs (some { p with motive := some (.num q) })).motive.isIntInRange = true) ∧
    (∀ p : RawLikelihoodJs, ∀ q : ℚ, (validateLikelihoodJs (some { p with opportunity := some (.num q) })).opportunity.isIntInRange = true) ∧
    (∀ p : RawLikelihoodJs, ∀ q : ℚ, (validateLikelihoodJs (some { p with size := some (.num q) })).size.isIntInRange = true) ∧
    (∀ p : RawLikelihoodJs, ∀ q : ℚ, (validateLikelihoodJs (some { p with easeOfDiscovery := some (.num q) })).easeOfDiscovery.isIntInRange = true) ∧
    (∀ p : RawLikelihoodJs, ∀ q : ℚ, (validateLikelihoodJs (some { p with easeOfExploit := some (.num q) })).easeOfExploit.isIntInRange = true) ∧
    (∀ p : RawLikelihoodJs, ∀ q : ℚ, (validateLikelihoodJs (some { p with awareness := some (.num q) })).awareness.isIntInRange = true) ∧
    (∀ p : RawLikelihoodJs, ∀ q : ℚ, (validateLikelihoodJs (some { p with intrusionDetection := some (.num q) })).intrusionDetection.isIntInRange = true) ∧
    (∀ p : RawImpactJs, ∀ q : ℚ, (validateImpactJs (some { p with confidentiality := some (.num q) })).confidentiality.isIntInRange = true) ∧
    (∀ p : RawImpactJs, ∀ q : ℚ, (validateImpactJs (some { p with integrity := some (.num q) })).integrity.isIntInRange = true) ∧
    (∀ p : RawImpactJs, ∀ q : ℚ, (validateImpactJs (some { p with availability := some (.num q) })).availability.isIntInRange = true) ∧
    (∀ p : RawImpactJs, ∀ q : ℚ, (validateImpactJs (some { p with accountability := some (.num q) })).accountability.isIntInRange = true) ∧
    (∀ p : RawLikelihoodJs, (validateLikelihoodJs (some { p with skillLevel := some .nan })).skillLevel = .nan) ∧
    (∀ p : RawLikelihoodJs, (validateLikelihoodJs (some { p with motive := some .nan })).motive = .nan) ∧
    (∀ p : RawLikelihoodJs, (validateLikelihoodJs (some { p with opportunity := some .nan })).opportunity = .nan) ∧
    (∀ p : RawLikelihoodJs, (validateLikelihoodJs (some { p with size := some .nan })).size = .nan) ∧
    (∀ p : RawLikelihoodJs, (validateLikelihoodJs (some { p with easeOfDiscovery := some .nan })).easeOfDiscovery = .nan) ∧
    (∀ p : RawLikelihoodJs, (validateLikelihoodJs (some { p with easeOfExploit := some .nan })).easeOfExploit = .nan) ∧
    (∀ p : RawLikelihoodJs, (validateLikelihoodJs (some { p with awareness := some .nan })).awareness = .nan) ∧
    (∀ p : RawLikelihoodJs, (validateLikelihoodJs (some { p with intrusionDetection := some .nan })).intrusionDetection = .nan) ∧
    (∀ p : RawImpactJs, (validateImpactJs (some { p with confidentiality := some .nan })).confidentiality = .nan) ∧
    (∀ p : RawImpactJs, (validateImpactJs (some { p with integrity := some .nan })).integrity = .nan) ∧
    (∀ p : RawImpactJs, (validateImpactJs (some { p with availability := some .nan })).availability = .nan) ∧
    (∀ p : RawImpactJs, (validateImpactJs (some { p with accountability := some .nan })).accountability = .nan) := by
  refine ⟨rfl, rfl, jsClamp_num,
    fun q => by
      rw [jsClamp_num]
      exact isIntInRange_intCast _ (clamp_nonneg q) (clamp_le_nine q),
    rfl, jsClamp_posInf, rfl,
    fun p => by simp [validateLikelihoodJs, jsClamp_num, clamp_five],
    fun p => by simp [validateLikelihoodJs, jsClamp_num, clamp_five],
    fun p => by simp [validateLikelihoodJs, jsClamp_num, clamp_five],
    fun p => by simp [validateLikelihoodJs, jsClamp_num, clamp_five],
    fun p => by simp [validateLikelihoodJs, jsClamp_num, clamp_five],
    fun p => by simp [validateLikelihoodJs, jsClamp_num, clamp_five],
    fun p => by simp [validateLikelihoodJs, jsClamp_num, clamp_five],
    fun p => by simp [validateLikelihoodJs, jsClamp_num, clamp_five],
    fun p => by simp [validateImpactJs, jsClamp_num, clamp_five],
    fun p => by simp [validateImpactJs, jsClamp_num, clamp_five],
    fun p => by simp [validateImpactJs, jsClamp_num, clamp_five],
    fun p => by simp [validateImpactJs, jsClamp_num, clamp_five],
    fun p q => by
      simp only [validateLikelihoodJs, validJs_num_field]
      exact isIntInRange_intCast _ (clamp_nonneg q) (clamp_le_nine q),
    fun p q => by
      simp only [validateLikelihoodJs, validJs_num_field]
      exact isIntInRange_intCast _ (clamp_nonneg q) (clamp_le_nine q),
    fun p q => by
      simp only [validateLikelihoodJs, validJs_num_field]
      exact isIntInRange_intCast _ (clamp_nonneg q) (clamp_le_nine q),
    fun p q => by
      simp only [validateLikelihoodJs, validJs_num_field]
      exact isIntInRange_intCast _ (clamp_nonneg q) (clamp_le_nine q),
    fun p q => by
      simp only [validateLikelihoodJs, validJs_num_field]
      exact isIntInRange_intCast _ (clamp_nonneg q) (clamp_le_nine q),
    fun p q => by
      simp only [validateLikelihoodJs, validJs_num_field]
      exact isIntInRange_intCast _ (clamp_nonneg q) (clamp_le_nine q),
    fun p q => by
      simp only [validateLikelihoodJs, validJs_num_field]
      exact isIntInRange_intCast _ (clamp_nonneg q) (clamp_le_nine q),
    fun p q => by
      simp only [validateLikelihoodJs, validJs_num_field]
      exact isIntInRange_intCast _ (clamp_nonneg q) (clamp_le_nine q),
    fun p q => by
      simp only [validateImpactJs, validJs_num_field]
      exact isIntInRange_intCast _ (clamp_nonneg q) (clamp_le_nine q),
    fun p q => by
      simp only [validateImpactJs, validJs_num_field]
      exact isIntInRange_intCast _ (clamp_nonneg q) (clamp_le_nine q),
    fun p q => by
      simp only [validateImpactJs, validJs_num_field]
      exact isIntInRange_intCast _ (clamp_nonneg q) (clamp_le_nine q),
    fun p q => by
      simp only [validateImpactJs, validJs_num_field]
      exact isIntInRange_intCast _ (clamp_nonneg q) (clamp_le_nine q),
    fun p => rfl, fun p => rfl, fun p => rfl, fun p => rfl,
    fun p => rfl, fun p => rfl, fun p => rfl, fun p => rfl,
    fun p => rfl, fun p => rfl, fun p => rfl, fun p => rfl⟩

/-- The restricted-model statement retained for reference: over the
absent-or-finite domain every validated sub-factor is an integer in
[0,9] and every absent sub-factor defaults to 5. -/
theorem riskEngine_factors_clamped_finite :
    (∀ rawL rawI,
      (0 ≤ (calculateRiskRating rawL rawI).likelihood.skillLevel ∧
        (calculateRiskRating rawL rawI).likelihood.skillLevel ≤ 9) ∧
      (0 ≤ (calculateRiskRating rawL rawI).likelihood.motive ∧
        (calculateRiskRating rawL rawI).likelihood.motive ≤ 9) ∧
      (0 ≤ (calculateRiskRating rawL rawI).likelihood.opportunity ∧
        (calculateRiskRating rawL rawI).likelihood.opportunity ≤ 9) ∧
      (0 ≤ (calculateRiskRating rawL rawI).likelihood.size ∧
        (calculateRiskRating rawL rawI).likelihood.size ≤ 9) ∧
      (0 ≤ (calculateRiskRating rawL rawI).likelihood.easeOfDiscovery ∧
        (calculateRiskRating rawL rawI).likelihood.easeOfDiscovery ≤ 9) ∧
      (0 ≤ (calculateRiskRating rawL rawI).likelihood.easeOfExploit ∧
        (calculateRiskRating rawL rawI).likelihood.easeOfExploit ≤ 9) ∧
      (0 ≤ (calculateRiskRating rawL rawI).likelihood.awareness ∧
        (calculateRiskRating rawL rawI).likelihood.awareness ≤ 9) ∧
      (0 ≤ (calculateRiskRating rawL rawI).likelihood.intrusionDetection ∧
        (calculateRiskRating rawL rawI).likelihood.intrusionDetection ≤ 9) ∧
      (0 ≤ (calculateRiskRating rawL rawI).impact.confidentiality ∧
        (calculateRiskRating rawL rawI).impact.confidentiality ≤ 9) ∧
      (0 ≤ (calculateRiskRating rawL rawI).impact.integrity ∧
        (calculateRiskRating rawL rawI).impact.integrity ≤ 9) ∧
      (0 ≤ (calculateRiskRating rawL rawI).impact.availability ∧
        (calculateRiskRating rawL rawI).impact.availability ≤ 9) ∧
      (0 ≤ (calculateRiskRating rawL rawI).impact.accountability ∧
        (calculateRiskRating rawL rawI).impact.accountability ≤ 9)) ∧
    validateLikelihood none = defaultLikelihood ∧
    validateImpact none = defaultImpact ∧
    (∀ p : RawLikelihood, (validateLikelihood (some { p with skillLevel := none })).skillLevel = 5) ∧
    (∀ p : RawLikelihood, (validateLikelihood (some { p with motive := none })).motive = 5) ∧
    (∀ p : RawLikelihood, (validateLikelihood (some { p with opportunity := none })).opportunity = 5) ∧
    (∀ p : RawLikelihood, (validateLikelihood (some { p with size := none })).size = 5) ∧
    (∀ p : RawLikelihood, (validateLikelihood (some { p with easeOfDiscovery := none })).easeOfDiscovery = 5) ∧
    (∀ p : RawLikelihood, (validateLikelihood (some { p with easeOfExploit := none })).easeOfExploit = 5) ∧
    (∀ p : RawLikelihood, (validateLikelihood (some { p with awareness := none })).awareness = 5) ∧
    (∀ p : RawLikelihood, (validateLikelihood (some { p with intrusionDetection := none })).intrusionDetection = 5) ∧
    (∀ p : RawImpact, (validateImpact (some { p with confidentiality := none })).confidentiality = 5) ∧
    (∀ p : RawImpact, (validateImpact (some { p with integrity := none })).integrity = 5) ∧
    (∀ p : RawImpact, (validateImpact (some { p with availability := none })).availability = 5) ∧
    (∀ p : RawImpact, (validateImpact (some { p with accountability := none })).accountability = 5) := by
  refine ⟨fun rawL rawI => ?_, rfl, rfl,
    fun p => by simp [validateLikelihood, clamp_five],
    fun p => by simp [validateLikelihood, clamp_five],
    fun p => by simp [validateLikelihood, clamp_five],
    fun p => by simp [validateLikelihood, clamp_five],
    fun p => by simp [validateLikelihood, clamp_five],
    fun p => by simp [validateLikelihood, clamp_five],
    fun p => by simp [validateLikelihood, clamp_five],
    fun p => by simp [validateLikelihood, clamp_five],
    fun p => by simp [validateImpact, clamp_five],
    fun p => by simp [validateImpact, clamp_five],
    fun p => by simp [validateImpact, clamp_five],
    fun p => by simp [validateImpact, clamp_five]⟩
  have hl := validateLikelihood_bounded rawL
  have hi := validateImpact_bounded rawI
  have hlik : (calculateRiskRating rawL rawI).likelihood = validateLikelihood rawL := rfl
  have himp : (calculateRiskRating rawL rawI).impact = validateImpact rawI := rfl
  rw [hlik, himp]
  exact ⟨hl.1, hl.2.1, hl.2.2.1, hl.2.2.2.1, hl.2.2.2.2.1, hl.2.2.2.2.2.1,
    hl.2.2.2.2.2.2.1, hl.2.2.2.2.2.2.2, hi.1, hi.2.1, hi.2.2.1, hi.2.2.2⟩

/-! ### Scan decomposition lemmas -/

theorem scanStep_eq (i : Nat) (c : ScanCore) (l : ℤ) (ch : Char) :
    scanStep i (mkSt c l) ch =
      mkSt (scanCoreStep c ch) (if closes1 c ch then (i : ℤ) else l) := by
  rcases c with ⟨d, istr, es⟩
  by_cases h1 : es <;> by_cases h2 : ch = '\\' <;> by_cases h3 : ch = '"' <;>
    by_cases h4 : istr <;> by_cases h5 : ch = '[' ∨ ch = '\x7b' <;>
    by_cases h6 : ch = ']' ∨ ch = '\x7d' <;>
    simp_all [scanStep, scanCoreStep, closes1, mkSt, beq_iff_eq] <;>
    rcases h6 with h6 | h6 <;>
    simp_all [ScanSt.mk.injEq] <;> split_ifs <;> simp_all [ScanSt.mk.injEq] <;> omega

theorem scanFrom_eq (cs : List Char) : ∀ (i : Nat) (c : ScanCore) (l : ℤ),
    scanFrom i (mkSt c l) cs = mkSt (scanCore c cs) (lastClose c i cs l) := by
  induction cs with
  | nil => intro i c l; rfl
  | cons ch rest ih =>
    intro i c l
    rw [scanFrom, scanStep_eq, ih, scanCore, lastClose]

theorem scanCore_append (xs ys : List Char) : ∀ c : ScanCore,
    scanCore c (xs ++ ys) = scanCore (scanCore c xs) ys := by
  induction xs with
  | nil => intro c; rfl
  | cons ch rest ih => intro c; rw [List.cons_append, scanCore, scanCore, ih]

theorem lastClose_append (xs ys : List Char) : ∀ (c : ScanCore) (i : Nat) (l : ℤ),
    lastClose c i (xs ++ ys) l =
      lastClose (scanCore c xs) (i + xs.length) ys (lastClose c i xs l) := by
  induction xs with
  | nil => intro c i l; simp [lastClose, scanCore]
  | cons ch rest ih =>
    intro c i l
    rw [List.cons_append, lastClose, ih, lastClose, scanCore]
    congr 1
    simp
    omega

theorem lastClose_of_noFire (cs : List Char) : ∀ (c : ScanCore) (i : Nat) (l : ℤ),
    NoFire c cs → lastClose c i cs l = l := by
  induction cs with
  | nil => intro c i l _; rfl
  | cons ch rest ih =>
    intro c i l h
    rw [lastClose, h.1]
    exact ih _ _ _ h.2

theorem noFire_append (xs ys : List Char) : ∀ c : ScanCore,
    NoFire c (xs ++ ys) ↔ NoFire c xs ∧ NoFire (scanCore c xs) ys := by
  induction xs with
  | nil => intro c; simp [NoFire, scanCore]
  | cons ch rest ih =>
    intro c
    rw [List.cons_append]
    show (closes1 c ch = false ∧ NoFire _ (rest ++ ys)) ↔ _
    rw [ih]
    constructor
    · rintro ⟨h1, h2, h3⟩; exact ⟨⟨h1, h2⟩, h3⟩
    · rintro ⟨⟨h1, h2⟩, h3⟩; exact ⟨h1, h2, h3⟩

theorem scanCoreStep_plain {ch : Char} (h : plainChar ch = true) (c : ScanCore)
    (hesc : c.esc = false) : scanCoreStep c ch = c := by
  rcases c with ⟨d, istr, es⟩
  simp only at hesc
  subst hesc
  simp only [plainChar, Bool.not_eq_true', Bool.or_eq_false_iff, beq_eq_false_iff_ne,
    ne_eq] at h
  obtain ⟨⟨⟨⟨⟨hq, hb⟩, hl⟩, hr⟩, hob⟩, hcb⟩ := h
  simp [scanCoreStep, hq, hb, hl, hr, hob, hcb]

theorem closes1_plain {ch : Char} (h : plainChar ch = true) (c : ScanCore) :
    closes1 c ch = false := by
  simp only [plainChar, Bool.not_eq_true', Bool.or_eq_false_iff, beq_eq_false_iff_ne,
    ne_eq] at h
  simp [closes1, h.2]

theorem scanCore_plainRun (cs : List Char) (hp : ∀ ch ∈ cs, plainChar ch = true) :
    ∀ c : ScanCore, c.esc = false →
      scanCore c cs = c ∧ NoFire c cs := by
  induction cs with
  | nil => intro c _; exact ⟨rfl, trivial⟩
  | cons ch rest ih =>
    intro c hesc
    have hch := hp ch (List.mem_cons_self ch rest)
    have hstep := scanCoreStep_plain hch c hesc
    have hrest := ih (fun x hx => hp x (List.mem_cons_of_mem ch hx)) c hesc
    refine ⟨?_, closes1_plain hch c, ?_⟩
    · rw [scanCore, hstep]; exact hrest.1
    · rw [hstep]; exact hrest.2

/-! ### Scan neutrality of rendered JSON -/

theorem scanNeutral_append {d : ℤ} {X Y : List Char}
    (hX : ScanNeutral d X) (hY : ScanNeutral d Y) : ScanNeutral d (X ++ Y) := by
  refine ⟨?_, ?_⟩
  · rw [scanCore_append, hX.1, hY.1]
  · rw [noFire_append, hX.1]
    exact ⟨hX.2, hY.2⟩

theorem scanNeutral_plain_cons (c : Char) (hp : plainChar c = true) {d : ℤ}
    {X : List Char} (hX : ScanNeutral d X) : ScanNeutral d (c :: X) := by
  have hstep : scanCoreStep ⟨d, false, false⟩ c = ⟨d, false, false⟩ :=
    scanCoreStep_plain hp _ rfl
  refine ⟨?_, ?_, ?_⟩
  · rw [scanCore, hstep]; exact hX.1
  · exact closes1_plain hp _
  · rw [hstep]; exact hX.2

theorem scanNeutral_plainRun {X : List Char} (hp : ∀ c ∈ X, plainChar c = true)
    (d : ℤ) : ScanNeutral d X :=
  scanCore_plainRun X hp ⟨d, false, false⟩ rfl

theorem scanNeutral_nil (d : ℤ) : ScanNeutral d [] :=
  ⟨rfl, trivial⟩

theorem digitChar_plain (n : Nat) : plainChar (digitChar n) = true := by
  unfold digitChar
  split_ifs <;> rfl

theorem natDigitsAux_plain (fuel : Nat) : ∀ (n : Nat) (acc : List Char),
    (∀ c ∈ acc, plainChar c = true) → ∀ c ∈ natDigitsAux fuel n acc, plainChar c = true := by
  induction fuel with
  | zero => intro n acc hacc c hc; exact hacc c hc
  | succ fuel ih =>
    intro n acc hacc c hc
    match n, hc with
    | 0, hc => exact hacc c hc
    | m + 1, hc =>
      rw [show natDigitsAux (fuel + 1) (m + 1) acc =
        natDigitsAux fuel ((m + 1) / 10) (digitChar ((m + 1) % 10) :: acc) from rfl] at hc
      refine ih ((m + 1) / 10) _ ?_ c hc
      intro x hx
      rcases List.mem_cons.mp hx with h | h
      · rw [h]; exact digitChar_plain _
      · exact hacc x h

theorem natDigits_plain (n : Nat) : ∀ c ∈ natDigits n, plainChar c = true := by
  unfold natDigits
  split_ifs
  · intro c hc
    simp only [List.mem_singleton] at hc
    rw [hc]; rfl
  · exact natDigitsAux_plain n n [] (by simp)

theorem escList_neutral (cs : List Char) : ∀ d : ℤ,
    scanCore ⟨d, true, false⟩ (escList cs) = ⟨d, true, false⟩ ∧
      NoFire ⟨d, true, false⟩ (escList cs) := by
  induction cs with
  | nil => intro d; exact ⟨rfl, trivial⟩
  | cons c rest ih =>
    intro d
    rw [escList]
    by_cases h : c = '"' ∨ c = '\\'
    · have he : escChar c = ['\\', c] := by rw [escChar, if_pos h]
      rw [he]
      have h1 : scanCoreStep ⟨d, true, false⟩ '\\' = ⟨d, true, true⟩ := rfl
      have h2 : scanCoreStep ⟨d, true, true⟩ c = ⟨d, true, false⟩ := rfl
      refine ⟨?_, ?_, ?_, ?_⟩
      · show scanCore _ _ = _
        simp only [scanCore]
        rw [h1, h2]
        exact (ih d).1
      · rfl
      · rw [h1]; rfl
      · rw [h1, h2]; exact (ih d).2
    · have he : escChar c = [c] := by rw [escChar, if_neg h]
      rw [he]
      push_neg at h
      have h1 : scanCoreStep ⟨d, true, false⟩ c = ⟨d, true, false⟩ := by
        simp [scanCoreStep, h.1, h.2]
      refine ⟨?_, ?_, ?_⟩
      · show scanCore _ _ = _
        simp only [scanCore]
        rw [h1]
        exact (ih d).1
      · simp [closes1]
      · rw [h1]; exact (ih d).2

theorem renderStr_neutral (s : String) (d : ℤ) : ScanNeutral d (renderStr s) := by
  rw [renderStr]
  have h1 : scanCoreStep ⟨d, false, false⟩ '"' = ⟨d, true, false⟩ := rfl
  have h2 : scanCoreStep ⟨d, true, false⟩ '"' = ⟨d, false, false⟩ := rfl
  have hin := escList_neutral s.toList d
  refine ⟨?_, ?_, ?_⟩
  · show scanCore _ _ = _
    rw [scanCore, h1, scanCore_append, hin.1, scanCore, h2, scanCore]
  · rfl
  · rw [h1, noFire_append, hin.1]
    exact ⟨hin.2, by simp [NoFire, closes1], trivial⟩

mutual

theorem render_neutral (v : JVal) : ∀ d : ℤ, 2 ≤ d → ScanNeutral d (render v) := by
  cases v with
  | jnull => exact fun d _ => scanNeutral_plainRun (by decide) d
  | jbool b =>
    cases b with
    | true => exact fun d _ => scanNeutral_plainRun (by decide) d
    | false => exact fun d _ => scanNeutral_plainRun (by decide) d
  | jnum n => exact fun d _ => scanNeutral_plainRun (natDigits_plain n) d
  | jstr s => exact fun d _ => renderStr_neutral s d
  | jarr es =>
    intro d hd
    have inner := renderArr_neutral es (d + 1) (by omega)
    have h1 : scanCoreStep ⟨d, false, false⟩ '[' = ⟨d + 1, false, false⟩ := rfl
    have hclose : scanCore ⟨d + 1, false, false⟩ [']'] = ⟨d, false, false⟩ := by
      simp only [scanCore]
      have h2 : scanCoreStep ⟨d + 1, false, false⟩ ']' = ⟨d + 1 - 1, false, false⟩ := rfl
      rw [h2]
      congr 1
      omega
    constructor
    · simp only [render, scanCore]
      rw [h1, scanCore_append, inner.1, hclose]
    · simp only [render]
      refine ⟨rfl, ?_⟩
      rw [h1, noFire_append, inner.1]
      exact ⟨inner.2, rfl, trivial⟩
  | jobj fs =>
    intro d hd
    have inner := renderObj_neutral fs (d + 1) (by omega)
    have h1 : scanCoreStep ⟨d, false, false⟩ '\x7b' = ⟨d + 1, false, false⟩ := rfl
    have hfire : closes1 ⟨d + 1, false, false⟩ '\x7d' = false := by
      simp [closes1, beq_eq_false_iff_ne]
      omega
    have hclose : scanCore ⟨d + 1, false, false⟩ ['\x7d'] = ⟨d, false, false⟩ := by
      simp only [scanCore]
      have h2 : scanCoreStep ⟨d + 1, false, false⟩ '\x7d' = ⟨d + 1 - 1, false, false⟩ := rfl
      rw [h2]
      congr 1
      omega
    constructor
    · simp only [render, scanCore]
      rw [h1, scanCore_append, inner.1, hclose]
    · simp only [render]
      refine ⟨rfl, ?_⟩
      rw [h1, noFire_append, inner.1]
      exact ⟨inner.2, hfire, trivial⟩

theorem renderArr_neutral (es : JArr) : ∀ d : ℤ, 2 ≤ d → ScanNeutral d (renderArr es) := by
  cases es with
  | anil => exact fun d _ => scanNeutral_nil d
  | acons v tl =>
    cases tl with
    | anil =>
      intro d hd
      simp only [renderArr]
      exact render_neutral v d hd
    | acons w tl2 =>
      intro d hd
      simp only [renderArr]
      exact scanNeutral_append (render_neutral v d hd)
        (scanNeutral_plain_cons ',' rfl (renderArr_neutral (.acons w tl2) d hd))

theorem renderObj_neutral (fs : JObj) : ∀ d : ℤ, 2 ≤ d → ScanNeutral d (renderObj fs) := by
  cases fs with
  | onil => exact fun d _ => scanNeutral_nil d
  | ocons k v tl =>
    cases tl with
    | onil =>
      intro d hd
      simp only [renderObj]
      exact scanNeutral_append (renderStr_neutral k d)
        (scanNeutral_plain_cons ':' rfl (render_neutral v d hd))
    | ocons k2 v2 tl2 =>
      intro d hd
      simp only [renderObj]
      exact scanNeutral_append
        (scanNeutral_append (renderStr_neutral k d)
          (scanNeutral_plain_cons ':' rfl (render_neutral v d hd)))
        (scanNeutral_plain_cons ',' rfl (renderObj_neutral (.ocons k2 v2 tl2) d hd))

end

/-! ### Behaviour at top-level-array depth 1 -/

theorem obj_at_depth1 (fs : JObj) (i : Nat) (l : ℤ) :
    scanCore ⟨1, false, false⟩ (render (.jobj fs)) = ⟨1, false, false⟩ ∧
      lastClose ⟨1, false, false⟩ i (render (.jobj fs)) l =
        (i : ℤ) + (render (.jobj fs)).length - 1 := by
  have inner := renderObj_neutral fs 2 (le_refl 2)
  have h1 : scanCoreStep ⟨1, false, false⟩ '\x7b' = ⟨2, false, false⟩ := rfl
  constructor
  · simp only [render, scanCore]
    rw [h1, scanCore_append, inner.1]
    simp only [scanCore]
    rfl
  · simp only [render, lastClose]
    have hc : closes1 ⟨1, false, false⟩ '\x7b' = false := rfl
    rw [hc, if_neg (by simp), h1, lastClose_append, inner.1,
      lastClose_of_noFire _ _ _ _ inner.2]
    simp only [lastClose]
    have hc2 : closes1 ⟨2, false, false⟩ '\x7d' = true := rfl
    rw [hc2, if_pos rfl]
    simp only [List.length_cons, List.length_append, List.length_singleton,
      List.length_nil]
    push_cast
    ring

theorem arrElems_depth1 (es : JArr) : allObjs es = true → es ≠ .anil →
    ∀ (i : Nat) (l : ℤ),
      scanCore ⟨1, false, false⟩ (renderArr es) = ⟨1, false, false⟩ ∧
        lastClose ⟨1, false, false⟩ i (renderArr es) l =
          (i : ℤ) + (renderArr es).length - 1 := by
  cases es with
  | anil => intro _ hne; exact absurd rfl hne
  | acons v tl =>
    intro hobjs _ i l
    have hv : v.isObj = true := by
      have := hobjs
      simp only [allObjs, Bool.and_eq_true] at this
      exact this.1
    have htl : allObjs tl = true := by
      have := hobjs
      simp only [allObjs, Bool.and_eq_true] at this
      exact this.2
    obtain ⟨fs, rfl⟩ : ∃ fs, v = .jobj fs := by
      cases v with
      | jobj fs => exact ⟨fs, rfl⟩
      | jnull => exact Bool.noConfusion hv
      | jbool b => exact Bool.noConfusion hv
      | jnum n => exact Bool.noConfusion hv
      | jstr s => exact Bool.noConfusion hv
      | jarr es2 => exact Bool.noConfusion hv
    cases tl with
    | anil =>
      simp only [renderArr]
      exact obj_at_depth1 fs i l
    | acons w tl2 =>
      simp only [renderArr]
      have hv1 := obj_at_depth1 fs i l
      have hcomma : scanCoreStep ⟨1, false, false⟩ ',' = ⟨1, false, false⟩ := rfl
      have hcfire : closes1 ⟨1, false, false⟩ ',' = false := rfl
      have hrest := arrElems_depth1 (.acons w tl2) htl (by intro h; exact JArr.noConfusion h)
        (i + (render (.jobj fs)).length + 1)
        ((i : ℤ) + (render (.jobj fs)).length - 1)
      constructor
      · rw [scanCore_append, hv1.1]
        simp only [scanCore]
        rw [hcomma]
        exact (hrest).1
      · rw [lastClose_append, hv1.1, hv1.2]
        simp only [lastClose]
        rw [hcfire, if_neg (by simp), hcomma]
        have := hrest.2
        rw [show i + (render (.jobj fs)).length + 1 =
          (i + (render (.jobj fs)).length) + 1 from rfl] at this
        rw [this]
        simp only [List.length_append, List.length_cons]
        push_cast
        ring

theorem noFire_partial_obj (fs : JObj) (p rest : List Char)
    (hsplit : p ++ rest = render (.jobj fs)) (hrest : rest ≠ []) :
    NoFire ⟨1, false, false⟩ p := by
  cases p with
  | nil => trivial
  | cons c p' =>
    rw [show render (.jobj fs) = '\x7b' :: (renderObj fs ++ ['\x7d']) from rfl] at hsplit
    rw [List.cons_append] at hsplit
    have hc : c = '\x7b' := (List.cons.injEq _ _ _ _ ▸ hsplit).1
    have htail : p' ++ rest = renderObj fs ++ ['\x7d'] :=
      (List.cons.injEq _ _ _ _ ▸ hsplit).2
    subst hc
    have h1 : scanCoreStep ⟨1, false, false⟩ '\x7b' = ⟨2, false, false⟩ := rfl
    refine ⟨rfl, ?_⟩
    rw [h1]
    have inner := (renderObj_neutral fs 2 (le_refl 2)).2
    rcases List.append_eq_append_iff.mp htail with ⟨a, ha1, _⟩ | ⟨c', hc1, hc2⟩
    · rw [ha1] at inner
      exact ((noFire_append _ _ _).mp inner).1
    · have hc' : c' = [] := by
        cases c' with
        | nil => rfl
        | cons x xs =>
          exfalso
          have h0 : xs ++ rest = [] := ((List.cons.injEq _ _ _ _ ▸ hc2).2).symm
          exact hrest (List.append_eq_nil.mp h0).2
      rw [hc', List.append_nil] at hc1
      rw [hc1]
      exact inner

theorem noFire_tail (extra : JVal) (hextra : extra.isObj = true) (tail rest : List Char)
    (hsplit : tail ++ rest = ',' :: render extra) (hrest : rest ≠ []) :
    NoFire ⟨1, false, false⟩ tail := by
  obtain ⟨fs, rfl⟩ : ∃ fs, extra = .jobj fs := by
    cases extra with
    | jobj fs => exact ⟨fs, rfl⟩
    | jnull => exact Bool.noConfusion hextra
    | jbool b => exact Bool.noConfusion hextra
    | jnum n => exact Bool.noConfusion hextra
    | jstr s => exact Bool.noConfusion hextra
    | jarr es2 => exact Bool.noConfusion hextra
  cases tail with
  | nil => trivial
  | cons c tail' =>
    rw [List.cons_append] at hsplit
    have hc : c = ',' := (List.cons.injEq _ _ _ _ ▸ hsplit).1
    have htail : tail' ++ rest = render (.jobj fs) :=
      (List.cons.injEq _ _ _ _ ▸ hsplit).2
    subst hc
    refine ⟨rfl, ?_⟩
    have hstep : scanCoreStep ⟨1, false, false⟩ ',' = ⟨1, false, false⟩ := rfl
    rw [hstep]
    exact noFire_partial_obj fs tail' rest htail hrest

theorem renderArr_len_pos (es : JArr) (hobjs : allObjs es = true) (hne : es ≠ .anil) :
    2 ≤ (renderArr es).length := by
  cases es with
  | anil => exact absurd rfl hne
  | acons v tl =>
    have hv : v.isObj = true := by
      simp only [allObjs, Bool.and_eq_true] at hobjs
      exact hobjs.1
    obtain ⟨fs, rfl⟩ : ∃ fs, v = .jobj fs := by
      cases v with
      | jobj fs => exact ⟨fs, rfl⟩
      | jnull => exact Bool.noConfusion hv
      | jbool b => exact Bool.noConfusion hv
      | jnum n => exact Bool.noConfusion hv
      | jstr s => exact Bool.noConfusion hv
      | jarr es2 => exact Bool.noConfusion hv
    have hlen : (render (.jobj fs)).length = (renderObj fs).length + 2 := by
      simp [render]
    cases tl with
    | anil =>
      simp only [renderArr]
      omega
    | acons w tl2 =>
      simp only [renderArr, List.length_append, List.length_cons]
      omega

/-- C5: for a response slice holding a top-level array of objects
truncated strictly after the `n`-th complete element (`n ≥ 1`) and
strictly before the end of the `n+1`-st — the truncated text is
`[`, the serializations of the `n` complete elements (comma-separated),
then any strict front part `tail` of `, <next element>` — the recovery
scan of `repairTruncatedJsonArray` truncates at the closing brace of the
`n`-th element and closes the array: the repaired text is exactly the
serialization of the array of those `n` elements, so re-parsing yields
exactly `n` elements. -/
theorem repairTruncated_recovers_elements (es : JArr) (extra : JVal)
    (tail rest : List Char) (n : Nat)
    (hobjs : allObjs es = true) (hn : jarrLength es = n) (hn1 : 1 ≤ n)
    (hextra : extra.isObj = true)
    (hsplit : tail ++ rest = ',' :: render extra) (hrest : rest ≠ []) :
    repairTruncatedJsonArray (String.mk ('[' :: (renderArr es ++ tail))) =
      some (String.mk (render (.jarr es))) := by
  have hne : es ≠ .anil := by
    intro h
    rw [h] at hn
    simp only [jarrLength] at hn
    omega
  have harr := arrElems_depth1 es hobjs hne 1 (-1)
  have htail := noFire_tail extra hextra tail rest hsplit hrest
  have hlen := renderArr_len_pos es hobjs hne
  have hmk : (⟨(0 : ℤ), false, false, (-1 : ℤ)⟩ : ScanSt) = mkSt ⟨0, false, false⟩ (-1) := rfl
  have hscan : scanFrom 0 ⟨0, false, false, -1⟩ ('[' :: (renderArr es ++ tail)) =
      mkSt (scanCore ⟨0, false, false⟩ ('[' :: (renderArr es ++ tail)))
        (lastClose ⟨0, false, false⟩ 0 ('[' :: (renderArr es ++ tail)) (-1)) := by
    rw [hmk, scanFrom_eq]
  have hlast : lastClose ⟨0, false, false⟩ 0 ('[' :: (renderArr es ++ tail)) (-1) =
      ((renderArr es).length : ℤ) := by
    simp only [lastClose]
    have hc0 : closes1 ⟨0, false, false⟩ '[' = false := rfl
    have h0 : scanCoreStep ⟨0, false, false⟩ '[' = ⟨1, false, false⟩ := rfl
    rw [hc0, if_neg (by simp), h0, lastClose_append, harr.1, harr.2,
      lastClose_of_noFire _ _ _ _ htail]
    ring
  unfold repairTruncatedJsonArray
  rw [show (String.mk ('[' :: (renderArr es ++ tail))).toList =
    '[' :: (renderArr es ++ tail) from rfl]
  rw [hscan, hlast]
  have hpos : (mkSt (scanCore ⟨0, false, false⟩ ('[' :: (renderArr es ++ tail)))
      ((renderArr es).length : ℤ)).lastEnd > 0 := by
    simp only [mkSt]
    omega
  rw [if_pos hpos]
  simp only [mkSt]
  rw [show (((renderArr es).length : ℤ)).toNat = (renderArr es).length from
    Int.toNat_natCast _]
  rw [List.take_succ_cons, List.take_left]
  rfl

/-- C5 witness: the array text `[{"a":1},` — the serialization of one
complete object followed by a comma (truncated before the second
element `{"b":2}` has produced any characters) — repairs to exactly
`[{"a":1}]`, the one-element array. -/
theorem repairTruncated_recovers_elements_witness :
    repairTruncatedJsonArray
        (String.mk ('[' ::
          (renderArr (.acons (.jobj (.ocons "a" (.jnum 1) .onil)) .anil) ++ [',']))) =
      some (String.mk (render (.jarr (.acons (.jobj (.ocons "a" (.jnum 1) .onil)) .anil)))) :=
  repairTruncated_recovers_elements
    (.acons (.jobj (.ocons "a" (.jnum 1) .onil)) .anil)
    (.jobj (.ocons "b" (.jnum 2) .onil))
    [','] (render (.jobj (.ocons "b" (.jnum 2) .onil))) 1
    rfl rfl (le_refl 1) rfl rfl (by decide)

/-- C6 counterexample: on the array text `[{"a":1` — truncated strictly
before the first complete element — the recovery scan finds no complete
element and fails (the JS throws, modelled as `none`); the parser does
not return an empty threat list. -/
theorem repair_before_first_element_fails :
    repairTruncatedJsonArray "[\x7b\"a\":1" = none := by
  decide

/-- C6 amended: for an array text truncated strictly before the end of
the first (object) element, recovery finds no complete element and
fails with an error that propagates (`parseThreatsResponse` rethrows,
threat-generator.ts lines 432-437); the parser throws rather than
returning an empty list. -/
theorem repairTruncated_fails_before_first_element (fs : JObj) (tail rest : List Char)
    (hsplit : tail ++ rest = render (.jobj fs)) (hrest : rest ≠ []) :
    repairTruncatedJsonArray (String.mk ('[' :: tail)) = none := by
  have htail := noFire_partial_obj fs tail rest hsplit hrest
  have hmk : (⟨(0 : ℤ), false, false, (-1 : ℤ)⟩ : ScanSt) = mkSt ⟨0, false, false⟩ (-1) := rfl
  have hscan : scanFrom 0 ⟨0, false, false, -1⟩ ('[' :: tail) =
      mkSt (scanCore ⟨0, false, false⟩ ('[' :: tail))
        (lastClose ⟨0, false, false⟩ 0 ('[' :: tail) (-1)) := by
    rw [hmk, scanFrom_eq]
  have hlast : lastClose ⟨0, false, false⟩ 0 ('[' :: tail) (-1) = -1 := by
    simp only [lastClose]
    have hc0 : closes1 ⟨0, false, false⟩ '[' = false := rfl
    have h0 : scanCoreStep ⟨0, false, false⟩ '[' = ⟨1, false, false⟩ := rfl
    rw [hc0, if_neg (by simp), h0, lastClose_of_noFire _ _ _ _ htail]
  unfold repairTruncatedJsonArray
  rw [show (String.mk ('[' :: tail)).toList = '[' :: tail from rfl]
  rw [hscan, hlast]
  rw [if_neg (by simp only [mkSt]; omega)]

/-- C6 amended witness: on `[{"a":1` (the first element `{"a":1}`
truncated after its sixth character, before the closing brace),
recovery fails. -/
theorem repairTruncated_fails_before_first_element_witness :
    repairTruncatedJsonArray
      (String.mk ('[' :: ((render (.jobj (.ocons "a" (.jnum 1) .onil))).take 6))) = none :=
  repairTruncated_fails_before_first_element (.ocons "a" (.jnum 1) .onil)
    ((render (.jobj (.ocons "a" (.jnum 1) .onil))).take 6)
    ((render (.jobj (.ocons "a" (.jnum 1) .onil))).drop 6)
    (List.take_append_drop 6 _) (by decide)

/-! ### Persisted severity (C1, C10) -/

theorem clamp_intCast (k : ℤ) (h0 : 0 ≤ k) (h9 : k ≤ 9) : clamp ((k : ℚ)) = k := by
  unfold clamp
  rw [round_intCast, min_eq_right h9, max_eq_right h0]

theorem validateLikelihood_idem (raw : Option RawLikelihood) :
    validateLikelihood (some (OwaspLikelihood.toRaw (validateLikelihood raw))) =
      validateLikelihood raw := by
  have h : ∀ v : ℚ, clamp (((clamp v : ℤ) : ℚ)) = clamp v :=
    fun v => clamp_intCast _ (clamp_nonneg v) (clamp_le_nine v)
  have h5 : clamp (((5 : ℤ) : ℚ)) = 5 := clamp_intCast 5 (by norm_num) (by norm_num)
  cases raw with
  | none =>
    simp [validateLikelihood, OwaspLikelihood.toRaw, defaultLikelihood, h5, clamp_five]
  | some r =>
    simp [validateLikelihood, OwaspLikelihood.toRaw, h]

theorem validateImpact_idem (raw : Option RawImpact) :
    validateImpact (some (OwaspImpact.toRaw (validateImpact raw))) =
      validateImpact raw := by
  have h : ∀ v : ℚ, clamp (((clamp v : ℤ) : ℚ)) = clamp v :=
    fun v => clamp_intCast _ (clamp_nonneg v) (clamp_le_nine v)
  have h5 : clamp (((5 : ℤ) : ℚ)) = 5 := clamp_intCast 5 (by norm_num) (by norm_num)
  cases raw with
  | none =>
    simp [validateImpact, OwaspImpact.toRaw, defaultImpact, h5, clamp_five]
  | some r =>
    simp [validateImpact, OwaspImpact.toRaw, h]

theorem calculateRiskRating_recompute (a : Option RawLikelihood) (b : Option RawImpact) :
    calculateRiskRating (some ((calculateRiskRating a b).likelihood.toRaw))
      (some ((calculateRiskRating a b).impact.toRaw)) = calculateRiskRating a b := by
  have h1 : (calculateRiskRating a b).likelihood = validateLikelihood a := rfl
  have h2 : (calculateRiskRating a b).impact = validateImpact b := rfl
  rw [h1, h2]
  unfold calculateRiskRating
  rw [validateLikelihood_idem, validateImpact_idem]

/-- C1: for every threat the orchestrator persists — any generated
threat, so both the model-backed path and the no-credential fallback,
through both the repository row builder and the design-document row
builder — the stored severity equals the Risk Rating Engine's severity
recomputed from the record's own stored likelihood/impact factors (with
"Note" stored as "Low"); and the row is entirely independent of the
upstream-suggested `severity` field, so an upstream severity is never
the stored value unless the engine recomputation agrees. -/
theorem persisted_severity_engine_derived :
    (∀ gt : GeneratedThreat,
      (repoThreatRow gt).severity =
        (if (calculateRiskRating (some ((repoThreatRow gt).owaspFactorsLikelihood.toRaw))
              (some ((repoThreatRow gt).owaspFactorsImpact.toRaw))).riskSeverity = .Note
         then .Low
         else (calculateRiskRating (some ((repoThreatRow gt).owaspFactorsLikelihood.toRaw))
              (some ((repoThreatRow gt).owaspFactorsImpact.toRaw))).riskSeverity) ∧
      (docThreatRow gt).severity =
        (if (calculateRiskRating (some ((docThreatRow gt).owaspFactorsLikelihood.toRaw))
              (some ((docThreatRow gt).owaspFactorsImpact.toRaw))).riskSeverity = .Note
         then .Low
         else (calculateRiskRating (some ((docThreatRow gt).owaspFactorsLikelihood.toRaw))
              (some ((docThreatRow gt).owaspFactorsImpact.toRaw))).riskSeverity)) ∧
    (∀ (gt : GeneratedThreat) (s : RiskSeverity),
      repoThreatRow { gt with severity := s } = repoThreatRow gt ∧
      docThreatRow { gt with severity := s } = docThreatRow gt) := by
  constructor
  · intro gt
    have hre := calculateRiskRating_recompute (gt.owaspLikelihood.map OwaspLikelihood.toRaw)
      (gt.owaspImpact.map OwaspImpact.toRaw)
    constructor
    · show (repoThreatRow gt).severity = _
      simp only [repoThreatRow, persistedRiskRating]
      rw [hre]
    · show (docThreatRow gt).severity = _
      simp only [docThreatRow, persistedRiskRating]
      rw [hre]
  · intro gt s
    exact ⟨rfl, rfl⟩

theorem demo_row_severity (t : GeneratedThreat) (h1 : t.owaspLikelihood = none)
    (h2 : t.owaspImpact = none) : (repoThreatRow t).severity = .Medium := by
  have hcalc : (calculateRiskRating none none).riskSeverity = RiskSeverity.Medium := by
    norm_num [calculateRiskRating, validateLikelihood, validateImpact, likelihoodMean,
      impactMean, defaultLikelihood, defaultImpact, getLevel, getRiskSeverity]
  simp only [repoThreatRow, persistedRiskRating, h1, h2, Option.map_none', hcalc]
  rfl

theorem demoFindingLoop_noFactors (analysis : RepoAnalysis) (fs : List SecurityFinding) :
    ∀ acc : List GeneratedThreat,
      (∀ t ∈ acc, t.owaspLikelihood = none ∧ t.owaspImpact = none) →
      ∀ t ∈ demoFindingLoop analysis fs acc,
        t.owaspLikelihood = none ∧ t.owaspImpact = none := by
  induction fs with
  | nil => intro acc hacc t ht; exact hacc t ht
  | cons f rest ih =>
    intro acc hacc t ht
    refine ih _ ?_ t ht
    intro u hu
    rcases List.mem_append.mp hu with h | h
    · exact hacc u h
    · rcases List.mem_singleton.mp h with rfl
      exact ⟨rfl, rfl⟩

theorem demoArchLoop_noFactors (analysis : RepoAnalysis)
    (as : List (String × StrideCategory × RiskSeverity × String)) :
    ∀ acc : List GeneratedThreat,
      (∀ t ∈ acc, t.owaspLikelihood = none ∧ t.owaspImpact = none) →
      ∀ t ∈ demoArchLoop analysis as acc,
        t.owaspLikelihood = none ∧ t.owaspImpact = none := by
  induction as with
  | nil => intro acc hacc t ht; exact hacc t ht
  | cons a rest ih =>
    intro acc hacc t ht
    refine ih _ ?_ t ht
    intro u hu
    rcases List.mem_append.mp hu with h | h
    · exact hacc u h
    · rcases List.mem_singleton.mp h with rfl
      exact ⟨rfl, rfl⟩

/-- C10: every threat emitted by the no-credential fallback generator
carries no OWASP factor estimates (`owaspLikelihood` and `owaspImpact`
absent), so at persistence the engine defaults all 12 sub-factors to 5,
giving MEDIUM/MEDIUM levels and stored severity exactly "Medium" for
every such record — regardless of the severity text the fallback
generator itself attached. -/
theorem demo_threats_persist_medium (analysis : RepoAnalysis) :
    ((generateDemoThreats analysis).all fun t =>
      t.owaspLikelihood == none && t.owaspImpact == none &&
        ((repoThreatRow t).severity == RiskSeverity.Medium)) = true := by
  rw [List.all_eq_true]
  intro t ht
  have hnf : t.owaspLikelihood = none ∧ t.owaspImpact = none := by
    unfold generateDemoThreats at ht
    refine demoArchLoop_noFactors analysis _ _ ?_ t ht
    exact demoFindingLoop_noFactors analysis _ [] (by simp)
  have hsev := demo_row_severity t hnf.1 hnf.2
  simp [Bool.and_eq_true, beq_iff_eq, hnf.1, hnf.2, hsev]

/-! ### LLM call layer (C9) -/

/-- C9 counterexample: the request `callLLM` builds for the default
(Anthropic) provider with the orchestrator's token budget carries no
explicit timeout — refuting "every external model invocation carries an
explicit timeout". -/
theorem llm_call_no_timeout_counterexample :
    (callLLMRequests "" "" ⟨.anthropic, "", none, none⟩ 16384).map
      (fun r => r.timeout) = [none] := rfl

/-- C9 amended: every `callLLM` invocation issues exactly one provider
request with the given max-token budget and no explicit timeout and no
retry option; the code contains no retry loop, so a model call is
attempted exactly once (never retried indefinitely — any timeout/retry
behaviour is the SDK default, not this code). -/
theorem llm_call_single_attempt (systemPrompt userPrompt : String)
    (cfg : LLMConfig) (maxTokens : Nat) :
    (callLLMRequests systemPrompt userPrompt cfg maxTokens).length = 1 ∧
    (callLLMRequests systemPrompt userPrompt cfg maxTokens).map
      (fun r => (r.timeout, r.maxRetries)) = [(none, none)] ∧
    (callLLMRequests systemPrompt userPrompt cfg maxTokens).map
      (fun r => r.maxTokens) = [maxTokens] := by
  rcases cfg with ⟨p, k, m, e⟩
  cases p <;> exact ⟨rfl, rfl, rfl⟩

/-! ### Pattern Scanner cap (C4) -/

theorem countFile_push (findings : List SecurityFinding) (f : SecurityFinding)
    (file : String) (h : f.file = file) :
    countFile (findings ++ [f]) file = countFile findings file + 1 := by
  unfold countFile
  rw [List.filter_append]
  simp [List.filter, h]

theorem scanMatches_le (file : String) (det : PatternInfo) :
    ∀ (ms : List (Nat × String)) (findings : List SecurityFinding),
      countFile (scanMatchesLoop file det ms findings) file ≤
        if countFile findings file < 10 then 10 else countFile findings file + 1 := by
  intro ms
  induction ms with
  | nil =>
    intro findings
    simp only [scanMatchesLoop]
    split <;> omega
  | cons m rest ih =>
    intro findings
    simp only [scanMatchesLoop]
    have hpush := countFile_push findings ⟨file, m.1, det.name, m.2, det.severity⟩ file rfl
    split
    case isTrue h =>
      rw [hpush] at h ⊢
      split <;> omega
    case isFalse h =>
      have hr := ih (findings ++ [⟨file, m.1, det.name, m.2, det.severity⟩])
      rw [hpush] at h hr
      split at hr <;> split <;> omega

theorem scanMatches_exact (file : String) (det : PatternInfo) :
    ∀ (ms : List (Nat × String)) (findings : List SecurityFinding),
      countFile findings file < 10 →
      10 ≤ countFile findings file + ms.length →
      countFile (scanMatchesLoop file det ms findings) file = 10 := by
  intro ms
  induction ms with
  | nil =>
    intro findings hlt hge
    simp only [List.length_nil] at hge
    omega
  | cons m rest ih =>
    intro findings hlt hge
    simp only [scanMatchesLoop]
    have hpush := countFile_push findings ⟨file, m.1, det.name, m.2, det.severity⟩ file rfl
    split
    case isTrue h =>
      rw [hpush] at h ⊢
      omega
    case isFalse h =>
      rw [hpush] at h
      refine ih _ ?_ ?_
      · rw [hpush]; omega
      · rw [hpush]
        simp only [List.length_cons] at hge
        omega

theorem scanDetectors_le (file : String) :
    ∀ (dets : List (PatternInfo × List (Nat × String)))
      (findings : List SecurityFinding),
      countFile (scanDetectorsLoop file dets findings) file ≤
        max (countFile findings file) 9 + dets.length := by
  intro dets
  induction dets with
  | nil =>
    intro findings
    simp only [scanDetectorsLoop, List.length_nil]
    omega
  | cons d rest ih =>
    intro findings
    rcases d with ⟨det, ms⟩
    simp only [scanDetectorsLoop, List.length_cons]
    have h1 := scanMatches_le file det ms findings
    have h2 := ih (scanMatchesLoop file det ms findings)
    split at h1 <;> omega

/-- C4 counterexample: a file on which the third registry detector
(`eval_usage`) has 12 matches and the last (`weak_crypto`) has one
match receives 11 findings: the cap check only breaks the inner
per-detector loop, so after `eval_usage` saturates the file at 10
findings, `weak_crypto` still appends one more — refuting "at most 10
findings for that file in total across the whole detector set". -/
theorem scanner_cap_counterexample :
    countFile (scanFileModel "app.js"
      [(⟨"eval_usage", "High", "Use of eval/exec which may allow code injection"⟩,
        (List.range 12).map (fun i => (i + 1, "eval(x)"))),
       (⟨"weak_crypto", "Medium", "Weak cryptographic algorithm usage"⟩,
        [(20, "md5(x)")])]
      []) "app.js" = 11 := by decide

/-- C4 amended: the per-file cap is enforced only within each
detector's match loop: a detector whose matches reach the file's 10th
finding stops, but each later detector with a match still appends one
finding before its own first cap check fires.  Hence (a) a file scanned
against a single detector with more than 10 matches yields exactly 10
findings for that detector/file pair, and (b) with the 10-detector
registry a file receives at most 19 findings in total. -/
theorem scanner_cap_amended :
    (∀ (file : String) (det : PatternInfo) (ms : List (Nat × String))
        (acc : List SecurityFinding),
      countFile acc file = 0 → 10 < ms.length →
      countFile (scanFileModel file [(det, ms)] acc) file = 10) ∧
    (∀ (file : String) (dets : List (PatternInfo × List (Nat × String)))
        (acc : List SecurityFinding),
      countFile acc file = 0 → dets.length ≤ 10 →
      countFile (scanFileModel file dets acc) file ≤ 19) := by
  constructor
  · intro file det ms acc hacc hms
    show countFile (scanDetectorsLoop file [(det, ms)] acc) file = 10
    simp only [scanDetectorsLoop]
    exact scanMatches_exact file det ms acc (by omega) (by omega)
  · intro file dets acc hacc hlen
    have h := scanDetectors_le file dets acc
    rw [hacc] at h
    show countFile (scanDetectorsLoop file dets acc) file ≤ 19
    omega

/-- C4 amended witness: a single detector with 12 matches on a fresh
file yields exactly 10 findings, and the full 10-detector registry
yields at most 19. -/
theorem scanner_cap_amended_witness :
    countFile (scanFileModel "f.js"
      [(⟨"eval_usage", "High", "Use of eval/exec which may allow code injection"⟩,
        (List.range 12).map (fun i => (i + 1, "eval(x)")))] []) "f.js" = 10 ∧
    countFile (scanFileModel "f.js"
      (SECURITY_PATTERNS_INFO.map (fun p => (p, [(1, "s")]))) []) "f.js" ≤ 19 :=
  ⟨scanner_cap_amended.1 "f.js" _ _ [] rfl (by decide),
   scanner_cap_amended.2 "f.js" _ [] rfl (by decide)⟩

/-! ### Architecture Extractor (C7, C8) -/

theorem find?_chunk_none {p : ComponentInfo → Bool} {cond : Prop} [Decidable cond]
    {c : ComponentInfo} (l : List ComponentInfo) (hp : p c = false) :
    ((if cond then [c] else []) ++ l).find? p = l.find? p := by
  split
  · simp [List.find?, hp]
  · simp

theorem find?_chunk_some {p : ComponentInfo → Bool} {cond : Prop} [Decidable cond]
    {c : ComponentInfo} (l : List ComponentInfo) (hc : cond) (hp : p c = true) :
    ((if cond then [c] else []) ++ l).find? p = some c := by
  rw [if_pos hc]
  simp [List.find?, hp]

theorem find?_chunk_off {p : ComponentInfo → Bool} {cond : Prop} [Decidable cond]
    {c : ComponentInfo} (l : List ComponentInfo) (hc : ¬ cond) :
    ((if cond then [c] else []) ++ l).find? p = l.find? p := by
  rw [if_neg hc]
  simp

theorem find?_chunk_last_none {p : ComponentInfo → Bool} {cond : Prop} [Decidable cond]
    {c : ComponentInfo} (hp : p c = false) :
    (if cond then [c] else []).find? p = none := by
  split
  · simp [List.find?, hp]
  · rfl

theorem find?_chunk_last_some {p : ComponentInfo → Bool} {cond : Prop} [Decidable cond]
    {c : ComponentInfo} (hc : cond) (hp : p c = true) :
    (if cond then [c] else []).find? p = some c := by
  rw [if_pos hc]
  simp [List.find?, hp]

theorem find?_append_none {α} {p : α → Bool} {l : List α} (l' : List α)
    (h : l.find? p = none) : (l ++ l').find? p = l'.find? p := by
  induction l with
  | nil => rfl
  | cons a t ih =>
    rcases hpa : p a with _ | _
    · simp only [List.cons_append, List.find?, hpa] at h ⊢
      exact ih h
    · simp only [List.find?, hpa] at h
      exact Option.noConfusion h

theorem find?_append_some {α} {p : α → Bool} {l : List α} {x : α} (l' : List α)
    (h : l.find? p = some x) : (l ++ l').find? p = some x := by
  induction l with
  | nil => exact Option.noConfusion h
  | cons a t ih =>
    rcases hpa : p a with _ | _
    · simp only [List.cons_append, List.find?, hpa] at h ⊢
      exact ih h
    · simp only [List.cons_append, List.find?, hpa] at h ⊢
      exact h

theorem baseComponents_ne_nil {a f d q au i g : List String}
    (h : a ≠ [] ∨ f ≠ [] ∨ d ≠ [] ∨ q ≠ [] ∨ au ≠ [] ∨ i ≠ [] ∨ g ≠ []) :
    baseComponents a f d q au i g ≠ [] := by
  unfold baseComponents
  rcases h with h | h | h | h | h | h | h <;>
    simp [List.append_eq_nil, if_pos h]

theorem find?_pre_api (a f d q au i g s : List String) :
    (componentsPre a f d q au i g s).find? (fun c => c.type == .api) =
      if a ≠ [] then some (apiComp a) else none := by
  by_cases h : a = []
  · rw [if_neg (by simp [h])]
    unfold componentsPre
    split
    · rfl
    · unfold baseComponents
      simp only [List.append_assoc]
      rw [find?_chunk_off _ (by simp [h] : ¬ a ≠ [])]
      rw [find?_chunk_none _ (by exact rfl)]
      rw [find?_chunk_none _ (by exact rfl)]
      rw [find?_chunk_none _ (by exact rfl)]
      rw [find?_chunk_none _ (by exact rfl)]
      rw [find?_chunk_none _ (by exact rfl)]
      exact find?_chunk_last_none (by exact rfl)
  · rw [if_pos h]
    unfold componentsPre
    rw [if_neg (baseComponents_ne_nil (Or.inl h))]
    unfold baseComponents
    simp only [List.append_assoc]
    exact find?_chunk_some _ h (by exact rfl)

theorem find?_pre_frontend (a f d q au i g s : List String) :
    (componentsPre a f d q au i g s).find? (fun c => c.type == .frontend) =
      if f ≠ [] then some (frontendComp f) else none := by
  by_cases h : f = []
  · rw [if_neg (by simp [h])]
    unfold componentsPre
    split
    · rfl
    · unfold baseComponents
      simp only [List.append_assoc]
      rw [find?_chunk_none _ (by exact rfl)]
      rw [find?_chunk_off _ (by simp [h] : ¬ f ≠ [])]
      rw [find?_chunk_none _ (by exact rfl)]
      rw [find?_chunk_none _ (by exact rfl)]
      rw [find?_chunk_none _ (by exact rfl)]
      rw [find?_chunk_none _ (by exact rfl)]
      exact find?_chunk_last_none (by exact rfl)
  · rw [if_pos h]
    unfold componentsPre
    rw [if_neg (baseComponents_ne_nil (Or.inr (Or.inl h)))]
    unfold baseComponents
    simp only [List.append_assoc]
    rw [find?_chunk_none _ (by exact rfl)]
    exact find?_chunk_some _ h (by exact rfl)

theorem find?_pre_db (a f d q au i g s : List String) :
    (componentsPre a f d q au i g s).find? (fun c => c.type == .database) =
      if d ≠ [] then some (dbComp d) else none := by
  by_cases h : d = []
  · rw [if_neg (by simp [h])]
    unfold componentsPre
    split
    · rfl
    · unfold baseComponents
      simp only [List.append_assoc]
      rw [find?_chunk_none _ (by exact rfl)]
      rw [find?_chunk_none _ (by exact rfl)]
      rw [find?_chunk_off _ (by simp [h] : ¬ d ≠ [])]
      rw [find?_chunk_none _ (by exact rfl)]
      rw [find?_chunk_none _ (by exact rfl)]
      rw [find?_chunk_none _ (by exact rfl)]
      exact find?_chunk_last_none (by exact rfl)
  · rw [if_pos h]
    unfold componentsPre
    rw [if_neg (baseComponents_ne_nil (Or.inr (Or.inr (Or.inl h))))]
    unfold baseComponents
    simp only [List.append_assoc]
    rw [find?_chunk_none _ (by exact rfl)]
    rw [find?_chunk_none _ (by exact rfl)]
    exact find?_chunk_some _ h (by exact rfl)

theorem find?_pre_queue (a f d q au i g s : List String) :
    (componentsPre a f d q au i g s).find? (fun c => c.type == .queue) =
      if q ≠ [] then some (queueComp q) else none := by
  by_cases h : q = []
  · rw [if_neg (by simp [h])]
    unfold componentsPre
    split
    · rfl
    · unfold baseComponents
      simp only [List.append_assoc]
      rw [find?_chunk_none _ (by exact rfl)]
      rw [find?_chunk_none _ (by exact rfl)]
      rw [find?_chunk_none _ (by exact rfl)]
      rw [find?_chunk_off _ (by simp [h] : ¬ q ≠ [])]
      rw [find?_chunk_none _ (by exact rfl)]
      rw [find?_chunk_none _ (by exact rfl)]
      exact find?_chunk_last_none (by exact rfl)
  · rw [if_pos h]
    unfold componentsPre
    rw [if_neg (baseComponents_ne_nil (Or.inr (Or.inr (Or.inr (Or.inl h)))))]
    unfold baseComponents
    simp only [List.append_assoc]
    rw [find?_chunk_none _ (by exact rfl)]
    rw [find?_chunk_none _ (by exact rfl)]
    rw [find?_chunk_none _ (by exact rfl)]
    exact find?_chunk_some _ h (by exact rfl)

theorem find?_pre_auth (a f d q au i g s : List String) :
    (componentsPre a f d q au i g s).find? (fun c => c.name == "Auth Service") =
      if au ≠ [] then some (authComp au) else none := by
  by_cases h : au = []
  · rw [if_neg (by simp [h])]
    unfold componentsPre
    split
    · rfl
    · unfold baseComponents
      simp only [List.append_assoc]
      rw [find?_chunk_none _ (by exact rfl)]
      rw [find?_chunk_none _ (by exact rfl)]
      rw [find?_chunk_none _ (by exact rfl)]
      rw [find?_chunk_none _ (by exact rfl)]
      rw [find?_chunk_off _ (by simp [h] : ¬ au ≠ [])]
      rw [find?_chunk_none _ (by exact rfl)]
      exact find?_chunk_last_none (by exact rfl)
  · rw [if_pos h]
    unfold componentsPre
    rw [if_neg (baseComponents_ne_nil (Or.inr (Or.inr (Or.inr (Or.inr (Or.inl h))))))]
    unfold baseComponents
    simp only [List.append_assoc]
    rw [find?_chunk_none _ (by exact rfl)]
    rw [find?_chunk_none _ (by exact rfl)]
    rw [find?_chunk_none _ (by exact rfl)]
    rw [find?_chunk_none _ (by exact rfl)]
    exact find?_chunk_some _ h (by exact rfl)

theorem find?_pre_config (a f d q au i g s : List String) :
    (componentsPre a f d q au i g s).find? (fun c => c.type == .config) =
      if i ≠ [] then some (infraComp i) else none := by
  by_cases h : i = []
  · rw [if_neg (by simp [h])]
    unfold componentsPre
    split
    · rfl
    · unfold baseComponents
      simp only [List.append_assoc]
      rw [find?_chunk_none _ (by exact rfl)]
      rw [find?_chunk_none _ (by exact rfl)]
      rw [find?_chunk_none _ (by exact rfl)]
      rw [find?_chunk_none _ (by exact rfl)]
      rw [find?_chunk_none _ (by exact rfl)]
      rw [find?_chunk_off _ (by simp [h] : ¬ i ≠ [])]
      exact find?_chunk_last_none (by exact rfl)
  · rw [if_pos h]
    unfold componentsPre
    rw [if_neg (baseComponents_ne_nil (Or.inr (Or.inr (Or.inr (Or.inr (Or.inr (Or.inl h)))))))]
    unfold baseComponents
    simp only [List.append_assoc]
    rw [find?_chunk_none _ (by exact rfl)]
    rw [find?_chunk_none _ (by exact rfl)]
    rw [find?_chunk_none _ (by exact rfl)]
    rw [find?_chunk_none _ (by exact rfl)]
    rw [find?_chunk_none _ (by exact rfl)]
    exact find?_chunk_some _ h (by exact rfl)

theorem find?_pre_gateway (a f d q au i g s : List String) :
    (componentsPre a f d q au i g s).find? (fun c => c.type == .gateway) =
      if g ≠ [] then some (gatewayComp g) else none := by
  by_cases h : g = []
  · rw [if_neg (by simp [h])]
    unfold componentsPre
    split
    · rfl
    · unfold baseComponents
      simp only [List.append_assoc]
      rw [find?_chunk_none _ (by exact rfl)]
      rw [find?_chunk_none _ (by exact rfl)]
      rw [find?_chunk_none _ (by exact rfl)]
      rw [find?_chunk_none _ (by exact rfl)]
      rw [find?_chunk_none _ (by exact rfl)]
      rw [find?_chunk_none _ (by exact rfl)]
      rw [if_neg (by simp [h] : ¬ g ≠ [])]
      rfl
  · rw [if_pos h]
    unfold componentsPre
    rw [if_neg (baseComponents_ne_nil (Or.inr (Or.inr (Or.inr (Or.inr (Or.inr (Or.inr h)))))))]
    unfold baseComponents
    simp only [List.append_assoc]
    rw [find?_chunk_none _ (by exact rfl)]
    rw [find?_chunk_none _ (by exact rfl)]
    rw [find?_chunk_none _ (by exact rfl)]
    rw [find?_chunk_none _ (by exact rfl)]
    rw [find?_chunk_none _ (by exact rfl)]
    rw [find?_chunk_none _ (by exact rfl)]
    exact find?_chunk_last_some h (by exact rfl)

theorem isSome_ite_iff {α} (cond : Prop) [Decidable cond] (x : α) :
    ((if cond then some x else none).isSome = true) ↔ cond := by
  split <;> simp_all

/-- C7 counterexample: with a frontend and an API component classified
(and nothing else), the extractor emits the flows End User→Frontend
Application and Frontend Application→API Server; the claim's rule table
licenses only frontend→API, so the emitted flow set differs from the
table and contains the unlicensed End User→Frontend flow. -/
theorem flows_table_counterexample :
    ((extractArchitecture ["routes/a.ts"] ["pages/x.tsx"] [] [] [] [] [] []).dataFlows.map
        (fun f => (f.source, f.target)) ≠
      claimTablePairs True True False False False False) ∧
    ("End User", "Frontend Application") ∈
      ((extractArchitecture ["routes/a.ts"] ["pages/x.tsx"] [] [] [] [] [] []).dataFlows.map
        (fun f => (f.source, f.target))) := by
  constructor <;> decide

/-- C7 amended: the extractor's inferred data flows are exactly those
of the amended fixed rule table: if frontend and API both exist, End
User→frontend and frontend→API; else, if an API exists, End User→
(Gateway if present else API); Gateway→API if both exist; API→Auth if
both exist; API→Database if both exist; Auth→Database if both exist;
API→Queue if both exist — and no other flows. -/
theorem flows_match_amended_table (apiFiles frontendFiles dbFiles queueFiles
    authFiles infraFiles gatewayFiles srcFiles : List String) :
    ((extractArchitecture apiFiles frontendFiles dbFiles queueFiles authFiles
        infraFiles gatewayFiles srcFiles).dataFlows.map (fun f => (f.source, f.target))) =
      amendedTablePairs (frontendFiles ≠ []) (apiFiles ≠ []) (gatewayFiles ≠ [])
        (authFiles ≠ []) (dbFiles ≠ []) (queueFiles ≠ []) := by
  simp only [extractArchitecture,
    find?_pre_api, find?_pre_frontend, find?_pre_db, find?_pre_queue,
    find?_pre_auth, find?_pre_gateway,
    isSome_ite_iff, amendedTablePairs,
    List.map_append, apply_ite (List.map (fun f : DataFlow => (f.source, f.target))),
    List.map_cons, List.map_nil]

theorem filter_chunk_skip {p : ComponentInfo → Bool} {cond : Prop} [Decidable cond]
    {c : ComponentInfo} (l : List ComponentInfo) (hp : p c = false) :
    ((if cond then [c] else []) ++ l).filter p = l.filter p := by
  split
  · simp [List.filter, hp]
  · simp

theorem filter_chunk_keep {p : ComponentInfo → Bool} {cond : Prop} [Decidable cond]
    {c : ComponentInfo} (l : List ComponentInfo) (hp : p c = true) :
    ((if cond then [c] else []) ++ l).filter p =
      (if cond then [c] else []) ++ l.filter p := by
  split
  · simp [List.filter, hp]
  · simp

theorem filter_chunk_last_skip {p : ComponentInfo → Bool} {cond : Prop} [Decidable cond]
    {c : ComponentInfo} (hp : p c = false) :
    (if cond then [c] else []).filter p = [] := by
  split
  · simp [List.filter, hp]
  · rfl

theorem filter_chunk_last_keep {p : ComponentInfo → Bool} {cond : Prop} [Decidable cond]
    {c : ComponentInfo} (hp : p c = true) :
    (if cond then [c] else []).filter p = (if cond then [c] else []) := by
  split
  · simp [List.filter, hp]
  · rfl

theorem filter_pre_external (a f d q au i g s : List String) :
    (componentsPre a f d q au i g s).filter (fun c => c.type == .external) = [] := by
  unfold componentsPre
  split
  · rfl
  · unfold baseComponents
    simp only [List.append_assoc]
    rw [filter_chunk_skip _ (by exact rfl), filter_chunk_skip _ (by exact rfl),
      filter_chunk_skip _ (by exact rfl), filter_chunk_skip _ (by exact rfl),
      filter_chunk_skip _ (by exact rfl), filter_chunk_skip _ (by exact rfl),
      filter_chunk_last_skip (by exact rfl)]

theorem filter_pre_internal (a f d q au i g s : List String) :
    (componentsPre a f d q au i g s).filter (fun c => c.type != .external) =
      componentsPre a f d q au i g s := by
  unfold componentsPre
  split
  · rfl
  · unfold baseComponents
    simp only [List.append_assoc]
    rw [filter_chunk_keep _ (by exact rfl), filter_chunk_keep _ (by exact rfl),
      filter_chunk_keep _ (by exact rfl), filter_chunk_keep _ (by exact rfl),
      filter_chunk_keep _ (by exact rfl), filter_chunk_keep _ (by exact rfl),
      filter_chunk_last_keep (by exact rfl)]

theorem componentsPre_ne_nil (a f d q au i g s : List String) :
    componentsPre a f d q au i g s ≠ [] := by
  unfold componentsPre
  split
  · simp
  · assumption

/-- C8: every extraction yields exactly one `external`-type component,
named "End User"; and the trust boundaries number exactly 3 when a
`config`-type component exists and exactly 2 otherwise (a `config`
component exists exactly when the infra filter matched files). -/
theorem architecture_boundaries (apiFiles frontendFiles dbFiles queueFiles
    authFiles infraFiles gatewayFiles srcFiles : List String) :
    (((extractArchitecture apiFiles frontendFiles dbFiles queueFiles authFiles
        infraFiles gatewayFiles srcFiles).components.filter
          (fun c => c.type == .external)).map (fun c => c.name) = ["End User"]) ∧
    ((extractArchitecture apiFiles frontendFiles dbFiles queueFiles authFiles
        infraFiles gatewayFiles srcFiles).trustBoundaries.length =
      if ((extractArchitecture apiFiles frontendFiles dbFiles queueFiles authFiles
          infraFiles gatewayFiles srcFiles).components.find?
            (fun c => c.type == .config)).isSome then 3 else 2) ∧
    (((extractArchitecture apiFiles frontendFiles dbFiles queueFiles authFiles
        infraFiles gatewayFiles srcFiles).components.find?
          (fun c => c.type == .config)).isSome ↔ infraFiles ≠ []) := by
  have hext : ((componentsPre apiFiles frontendFiles dbFiles queueFiles authFiles
      infraFiles gatewayFiles srcFiles) ++ [endUserComp]).filter
        (fun c => c.type == .external) = [endUserComp] := by
    rw [List.filter_append, filter_pre_external]
    rfl
  have hint : ((componentsPre apiFiles frontendFiles dbFiles queueFiles authFiles
      infraFiles gatewayFiles srcFiles) ++ [endUserComp]).filter
        (fun c => c.type != .external) =
      componentsPre apiFiles frontendFiles dbFiles queueFiles authFiles
        infraFiles gatewayFiles srcFiles := by
    rw [List.filter_append, filter_pre_internal]
    simp [List.filter, endUserComp]
  have hconf : ((componentsPre apiFiles frontendFiles dbFiles queueFiles authFiles
      infraFiles gatewayFiles srcFiles) ++ [endUserComp]).find?
        (fun c => c.type == .config) =
      if infraFiles ≠ [] then some (infraComp infraFiles) else none := by
    by_cases h : infraFiles = []
    · rw [find?_append_none _ (by rw [find?_pre_config]; simp [h])]
      rw [if_neg (by simp [h])]
      rfl
    · rw [find?_append_some _ (by rw [find?_pre_config]; exact if_pos h)]
      rw [if_pos h]
  have hpre := componentsPre_ne_nil apiFiles frontendFiles dbFiles queueFiles
    authFiles infraFiles gatewayFiles srcFiles
  simp only [extractArchitecture, hext, hint, hconf]
  refine ⟨rfl, ?_, ?_⟩
  · by_cases h : infraFiles = []
    · subst h
      simp [List.map_eq_nil, hpre, endUserComp]
    · simp [h, List.map_eq_nil, hpre, endUserComp]
  · by_cases h : infraFiles = []
    · subst h
      simp
    · simp [h]

end Synthesis
